import Mathlib

/-!
# duckdb-nanoarrow: Arrow IPC stream writer and reader glue

A shallow embedding of

* `src/include/writer/arrow_stream_writer.hpp` (`ArrowStreamWriter`),
* `src/read_arrow.cpp` (`read_arrow`: `BindInternal`, `DuckDBDecompressZstd`),
* `src/read_arrow_stream.cpp` (`read_arrow_stream`: the stream factory, `BindInternal`,
  `Scan` and the input stream adapter `DuckDBArrowInputStream`).

C++ objects are records, member functions are functions on the record, a thrown
exception is the `error` side of `Except` (or the `thrown` field of a result record
where the state left behind by the throw is observable by the caller).  Machine
integers are `Nat`/`Int` with explicit wrap-around (`size_t`, `idx_t`: modulo `2^64`).
Collaborators that live outside the sources (DuckDB's converter and table-type
population and scan helpers, nanoarrow's IPC reader, zstd) are parameters bundled in
`...Host` records.
-/

namespace duckdb
namespace ext_nanoarrow

/-! ## Machine integers -/

/-- Conversion to `size_t` / `idx_t` (64-bit unsigned): reduction modulo `2^64`. -/
def size_t (n : Int) : Nat := (n % (2 ^ 64 : Int)).toNat

/-- Conversion to `int64_t`: two's complement reading of the low 64 bits. -/
def int64_t (n : Nat) : Int :=
  if n % 2 ^ 64 < 2 ^ 63 then ((n % 2 ^ 64 : Nat) : Int) else ((n % 2 ^ 64 : Nat) : Int) - (2 ^ 64 : Int)

/-- The `idx_t` pre-increment `++x`. -/
def idx_t_succ (x : Nat) : Nat := (x + 1) % 2 ^ 64

/-! ## Exceptions and nanoarrow error reporting -/

/-- The exceptions that cross the functions embedded here.  The first three are the
DuckDB exception classes thrown by the sources themselves; `NanoarrowException` is what
`NANOARROW_THROW_NOT_OK` throws; `Collaborator` stands for anything thrown from inside
code that is not among the sources (DuckDB's type conversion and table-type population,
the serializer's encoder, the factory of `read_arrow`). -/
inductive Exception where
  | InternalException (msg : String)
  | InvalidInputException (msg : String)
  | IOException (msg : String)
  | NanoarrowException (code : Int)
  | Collaborator (what : String)
  deriving DecidableEq, Repr

abbrev ArrowErrorCode := Int

def NANOARROW_OK : ArrowErrorCode := 0

/-- The value of errno `EIO`. -/
def EIO : ArrowErrorCode := 5

/-- One variadic argument of an `ArrowErrorSet` call. -/
inductive FmtArg where
  | i64 (v : Int)
  | str (s : String)
  deriving DecidableEq, Repr

/-- The content of a `struct ArrowError`: the format string and the arguments of the
last `ArrowErrorSet` call (nanoarrow renders them with `vsnprintf` into the message
buffer; the rendering is not part of the sources). -/
structure ArrowError where
  fmt : String
  args : List FmtArg
  deriving DecidableEq, Repr

def ArrowErrorSet (_error : ArrowError) (fmt : String) (args : List FmtArg) : ArrowError :=
  { fmt := fmt, args := args }

/-- The `PRId64` conversion specifier of `<inttypes.h>` (LP64). -/
def PRId64 : String := "ld"

/-! ## Schema and metadata -/

abbrev LogicalType := String

/-- The `ClientProperties` handed to the converter and the serializer. -/
structure ClientProperties where
  time_zone : String
  deriving DecidableEq, Repr

/-- An `ArrowStringView`: the bytes it views. -/
abbrev ArrowStringView := String

/-- A packed Arrow metadata block, read as the ordered key/value pairs it packs. -/
abbrev PackedMetadata := List (ArrowStringView × ArrowStringView)

/-- An `ArrowSchema` of struct type: the ordered children (name, format) and the
metadata pointer (`none` is the null pointer: no metadata block). -/
structure ArrowSchema where
  children : List (String × String)
  metadata : Option PackedMetadata
  deriving DecidableEq, Repr

/-- The packing buffer starts as a copy of the block it is given (an empty block for a
null pointer).  Allocation failure is not modelled. -/
def ArrowMetadataBuilderInit (metadata : Option PackedMetadata) : PackedMetadata :=
  metadata.getD []

/-- Appends one key/value pair at the end of the packing buffer. -/
def ArrowMetadataBuilderAppend (buffer : PackedMetadata) (key value : ArrowStringView) :
    PackedMetadata :=
  buffer ++ [(key, value)]

def ArrowSchemaDeepCopy (schema : ArrowSchema) : ArrowSchema := schema

def ArrowSchemaSetMetadata (schema : ArrowSchema) (metadata : PackedMetadata) : ArrowSchema :=
  { schema with metadata := some metadata }

/-! ## The destination: DuckDB's `BufferedFileWriter` -/

/-- The file system as the writer and the reader see it: the files that exist with
their content, the number of bytes a destination accepts, and the paths opened for
reading so far, oldest first. -/
structure FileSystem where
  files : List (String × List Nat)
  capacity : Nat
  opened : List String
  deriving DecidableEq, Repr

/-- DuckDB's `BufferedFileWriter`: every byte handed to `WriteData` so far, in order,
and whether `Close` was called.  A write beyond `capacity` or on a closed writer
throws. -/
structure BufferedFileWriter where
  path : String
  data : List Nat
  closed : Bool
  capacity : Nat
  deriving DecidableEq, Repr

def BufferedFileWriter.WriteData (self : BufferedFileWriter) (buffer : List Nat)
    (write_size : Nat) : Except Exception BufferedFileWriter :=
  if self.closed then
    .error (.InternalException "Attempted to dereference unique_ptr that is NULL!")
  else if self.capacity < self.data.length + write_size then
    .error (.IOException "Could not write all bytes to file")
  else
    .ok { self with data := self.data ++ buffer.take write_size }

def BufferedFileWriter.Close (self : BufferedFileWriter) : Except Exception BufferedFileWriter :=
  if self.closed then
    .error (.InternalException "Attempted to dereference unique_ptr that is NULL!")
  else
    .ok { self with closed := true }

def BufferedFileWriter.GetTotalWritten (self : BufferedFileWriter) : Nat :=
  self.data.length % 2 ^ 64

/-- Dereferencing a `duckdb::unique_ptr`: a null pointer throws. -/
def deref {α : Type} (p : Option α) : Except Exception α :=
  match p with
  | some a => .ok a
  | none => .error (.InternalException "Attempted to dereference unique_ptr that is NULL!")

/-! ## The batch serializer -/

/-- A `ColumnDataCollection`: the rows it holds. -/
structure ColumnDataCollection where
  rows : List (List Int)
  deriving DecidableEq, Repr

def ColumnDataCollection.Reset (_self : ColumnDataCollection) : ColumnDataCollection :=
  { rows := [] }

/-- The collaborators of the write path: DuckDB's `ArrowConverter::ToArrowSchema` and
the IPC encoder behind the serializer (the bytes of the schema message and of a
record-batch message). -/
structure WriterHost where
  ToArrowSchema : List LogicalType → List String → ClientProperties → Except String ArrowSchema
  encodeSchema : ArrowSchema → Except String (List Nat)
  encodeBatch : ArrowSchema → List LogicalType → ColumnDataCollection → Except String (List Nat)

/-- Modelled from the spec: `ColumnDataCollectionSerializer`
(`writer/column_data_collection_serializer.hpp` is not among the sources).  `Init`
binds the serializer to a schema and the column types; `SerializeSchema` and
`Serialize` leave one encoded message buffered; `Flush` writes the buffered message to
the output and clears the buffering, and is the only operation that performs I/O. -/
structure ColumnDataCollectionSerializer where
  options : ClientProperties
  schema : Option ArrowSchema
  logical_types : List LogicalType
  buffered : List Nat
  deriving DecidableEq, Repr

/-- Modelled from the spec: the serializer's constructor; nothing is bound and nothing
is buffered yet. -/
def ColumnDataCollectionSerializer.new (options : ClientProperties) :
    ColumnDataCollectionSerializer :=
  { options := options, schema := none, logical_types := [], buffered := [] }

/-- Modelled from the spec: `Init(schema, logical_types)` binds the serializer to the
schema and the column types. -/
def ColumnDataCollectionSerializer.Init (self : ColumnDataCollectionSerializer)
    (schema : ArrowSchema) (logical_types : List LogicalType) : ColumnDataCollectionSerializer :=
  { self with schema := some schema, logical_types := logical_types }

/-- Modelled from the spec: `SerializeSchema()` encodes the schema message only and
leaves it buffered. -/
def ColumnDataCollectionSerializer.SerializeSchema (host : WriterHost)
    (self : ColumnDataCollectionSerializer) : Except Exception ColumnDataCollectionSerializer :=
  match self.schema with
  | none => .error (.InternalException "serializer is not initialized")
  | some schema =>
    match host.encodeSchema schema with
    | .error what => .error (.Collaborator what)
    | .ok message => .ok { self with buffered := message }

/-- Modelled from the spec: `Serialize(batch)` encodes one batch as a record-batch
message and leaves it buffered; it does not touch the batch. -/
def ColumnDataCollectionSerializer.Serialize (host : WriterHost)
    (self : ColumnDataCollectionSerializer) (buffer : ColumnDataCollection) :
    Except Exception ColumnDataCollectionSerializer :=
  match self.schema with
  | none => .error (.InternalException "serializer is not initialized")
  | some schema =>
    match host.encodeBatch schema self.logical_types buffer with
    | .error what => .error (.Collaborator what)
    | .ok message => .ok { self with buffered := message }

/-- Modelled from the spec: `Flush(output)` writes the buffered message to the output
and clears the buffering. -/
def ColumnDataCollectionSerializer.Flush (self : ColumnDataCollectionSerializer)
    (writer : BufferedFileWriter) :
    Except Exception (ColumnDataCollectionSerializer × BufferedFileWriter) :=
  match writer.WriteData self.buffered self.buffered.length with
  | .error e => .error e
  | .ok writer1 => .ok ({ self with buffered := [] }, writer1)

/-- Opening the destination with `FILE_FLAGS_WRITE | FILE_FLAGS_FILE_CREATE_NEW`: an
existing file is a failure, a new destination starts empty. -/
def BufferedFileWriter.new (fs : FileSystem) (path : String) : Except Exception BufferedFileWriter :=
  if fs.files.any (fun f => f.1 == path) then
    .error (.IOException "File already exists")
  else
    .ok { path := path, data := [], closed := false, capacity := fs.capacity }

/-! ## `ArrowStreamWriter` (writer/arrow_stream_writer.hpp) -/

structure ClientContext where
  properties : ClientProperties
  fs : FileSystem
  deriving DecidableEq, Repr

def ClientContext.GetClientProperties (context : ClientContext) : ClientProperties :=
  context.properties

/-- The data members of `ArrowStreamWriter` (the allocator reference is left out).
`writer` is a `unique_ptr`, null until `InitOutputFile`; `schema` is a
`nanoarrow::UniqueSchema`, released (`none`) until `InitSchema`. -/
structure ArrowStreamWriter where
  options : ClientProperties
  serializer : ColumnDataCollectionSerializer
  file_name : String
  logical_types : List LogicalType
  writer : Option BufferedFileWriter
  row_group_count : Nat
  schema : Option ArrowSchema
  deriving DecidableEq, Repr

/-- The locals of the metadata loop of `InitSchema`. -/
structure MetadataLoop where
  metadata_packed : PackedMetadata
  key : ArrowStringView
  value : ArrowStringView
  deriving DecidableEq, Repr

/-- One iteration of `for (const auto& item : metadata)` in `InitSchema`:
`key = item.first; key = item.second; ArrowMetadataBuilderAppend(.., key, value)`. -/
def ArrowStreamWriter.InitSchema.body (st : MetadataLoop) (item : String × String) :
    MetadataLoop :=
  let st1 := { st with key := item.1 }
  let st2 := { st1 with key := item.2 }
  { st2 with metadata_packed := ArrowMetadataBuilderAppend st2.metadata_packed st2.key st2.value }

/-- The member function `ArrowStreamWriter::InitSchema`.  The locals `key` and `value`
are declared without an initializer; `key_uninit` and `value_uninit` are the contents
they happen to hold. -/
def ArrowStreamWriter.InitSchema (host : WriterHost) (self : ArrowStreamWriter)
    (logical_types : List LogicalType) (column_names : List String)
    (metadata : List (String × String)) (key_uninit value_uninit : ArrowStringView) :
    Except Exception ArrowStreamWriter :=
  match host.ToArrowSchema logical_types column_names self.options with
  | .error what => .error (.Collaborator what)
  | .ok tmp_schema =>
    let schema : ArrowSchema :=
      if metadata.isEmpty then
        tmp_schema
      else
        let st0 : MetadataLoop :=
          { metadata_packed := ArrowMetadataBuilderInit tmp_schema.metadata,
            key := key_uninit, value := value_uninit }
        let st := metadata.foldl ArrowStreamWriter.InitSchema.body st0
        ArrowSchemaSetMetadata (ArrowSchemaDeepCopy tmp_schema) st.metadata_packed
    .ok { self with
            schema := some schema,
            serializer := self.serializer.Init schema logical_types }

def ArrowStreamWriter.InitOutputFile (self : ArrowStreamWriter) (fs : FileSystem)
    (file_path : String) : Except Exception ArrowStreamWriter :=
  match BufferedFileWriter.new fs file_path with
  | .error e => .error e
  | .ok w => .ok { self with writer := some w }

/-- The constructor: member initializers, then `InitSchema`, then `InitOutputFile`. -/
def ArrowStreamWriter.new (host : WriterHost) (context : ClientContext) (fs : FileSystem)
    (file_path : String) (logical_types : List LogicalType) (column_names : List String)
    (metadata : List (String × String)) (key_uninit value_uninit : ArrowStringView) :
    Except Exception ArrowStreamWriter :=
  let self0 : ArrowStreamWriter :=
    { options := context.GetClientProperties,
      serializer := ColumnDataCollectionSerializer.new context.GetClientProperties,
      file_name := file_path,
      logical_types := logical_types,
      writer := none,
      row_group_count := 0,
      schema := none }
  match self0.InitSchema host logical_types column_names metadata key_uninit value_uninit with
  | .error e => .error e
  | .ok self1 => self1.InitOutputFile fs file_path

def ArrowStreamWriter.WriteSchema (host : WriterHost) (self : ArrowStreamWriter) :
    Except Exception ArrowStreamWriter :=
  match self.serializer.SerializeSchema host with
  | .error e => .error e
  | .ok serializer1 =>
    match deref self.writer with
    | .error e => .error e
    | .ok writer =>
      match serializer1.Flush writer with
      | .error e => .error e
      | .ok (serializer2, writer1) =>
        .ok { self with serializer := serializer2, writer := some writer1 }

def ArrowStreamWriter.NewSerializer (self : ArrowStreamWriter) :
    Except Exception ColumnDataCollectionSerializer :=
  match self.schema with
  | none => .error (.InternalException "schema is released")
  | some schema =>
    .ok ((ColumnDataCollectionSerializer.new self.options).Init schema self.logical_types)

/-- What a call of `Flush(ColumnDataCollection&)` leaves behind: the exception thrown,
if any, the writer, and the caller's batch (passed by reference). -/
structure FlushResult where
  thrown : Option Exception
  self : ArrowStreamWriter
  buffer : ColumnDataCollection
  deriving DecidableEq, Repr

/-- The overload `ArrowStreamWriter::Flush(ColumnDataCollection& buffer)`:
`serializer.Serialize(buffer); buffer.Reset(); serializer.Flush(*writer); ++row_group_count;` -/
def ArrowStreamWriter.Flush (host : WriterHost) (self : ArrowStreamWriter)
    (buffer : ColumnDataCollection) : FlushResult :=
  match self.serializer.Serialize host buffer with
  | .error e => { thrown := some e, self := self, buffer := buffer }
  | .ok serializer1 =>
    let self1 := { self with serializer := serializer1 }
    let buffer1 := buffer.Reset
    match deref self1.writer with
    | .error e => { thrown := some e, self := self1, buffer := buffer1 }
    | .ok writer =>
      match serializer1.Flush writer with
      | .error e => { thrown := some e, self := self1, buffer := buffer1 }
      | .ok (serializer2, writer1) =>
        { thrown := none,
          self := { self1 with
                      serializer := serializer2,
                      writer := some writer1,
                      row_group_count := idx_t_succ self1.row_group_count },
          buffer := buffer1 }

/-- The overload `ArrowStreamWriter::Flush(ColumnDataCollectionSerializer& serializer)`:
the argument shadows the member; returns the writer and the caller's serializer. -/
def ArrowStreamWriter.FlushSerializer (self : ArrowStreamWriter)
    (serializer : ColumnDataCollectionSerializer) :
    Except Exception (ArrowStreamWriter × ColumnDataCollectionSerializer) :=
  match deref self.writer with
  | .error e => .error e
  | .ok writer =>
    match serializer.Flush writer with
    | .error e => .error e
    | .ok (serializer1, writer1) =>
      .ok ({ self with writer := some writer1,
                       row_group_count := idx_t_succ self.row_group_count }, serializer1)

def end_of_stream : List Nat := [0xFF, 0xFF, 0xFF, 0xFF, 0x00, 0x00, 0x00, 0x00]

/-- The member function `ArrowStreamWriter::Finalize`:
`writer->WriteData(end_of_stream, sizeof(end_of_stream)); writer->Close();` -/
def ArrowStreamWriter.Finalize (self : ArrowStreamWriter) : Except Exception ArrowStreamWriter :=
  match deref self.writer with
  | .error e => .error e
  | .ok writer =>
    match writer.WriteData end_of_stream end_of_stream.length with
    | .error e => .error e
    | .ok writer1 =>
      match writer1.Close with
      | .error e => .error e
      | .ok writer2 => .ok { self with writer := some writer2 }

def ArrowStreamWriter.NumberOfRowGroups (self : ArrowStreamWriter) : Nat :=
  self.row_group_count

def ArrowStreamWriter.FileSize (self : ArrowStreamWriter) : Except Exception Nat :=
  match deref self.writer with
  | .error e => .error e
  | .ok writer => .ok writer.GetTotalWritten

/-! ### Call sequences on one writer -/

/-- One call a caller can make on a constructed writer. -/
inductive WriterCall where
  | WriteSchema
  | NewSerializer
  | Flush (buffer : ColumnDataCollection)
  | FlushSerializer (serializer : ColumnDataCollectionSerializer)
  | Finalize
  deriving DecidableEq, Repr

def WriterCall.isFlush : WriterCall → Bool
  | .Flush _ => true
  | .FlushSerializer _ => true
  | _ => false

/-- The writer after one call that did not throw. -/
def ArrowStreamWriter.call (host : WriterHost) (self : ArrowStreamWriter) :
    WriterCall → Except Exception ArrowStreamWriter
  | .WriteSchema => self.WriteSchema host
  | .NewSerializer =>
    match self.NewSerializer with
    | .error e => .error e
    | .ok _ => .ok self
  | .Flush buffer =>
    match (self.Flush host buffer).thrown with
    | some e => .error e
    | none => .ok (self.Flush host buffer).self
  | .FlushSerializer serializer =>
    match self.FlushSerializer serializer with
    | .error e => .error e
    | .ok (self1, _) => .ok self1
  | .Finalize => self.Finalize

/-- A sequence of calls, stopping at the first one that throws. -/
def ArrowStreamWriter.calls (host : WriterHost) (self : ArrowStreamWriter) :
    List WriterCall → Except Exception ArrowStreamWriter
  | [] => .ok self
  | c :: cs =>
    match self.call host c with
    | .error e => .error e
    | .ok self1 => self1.calls host cs

/-- The number of `Flush` calls (either overload) in a sequence. -/
def flushCount (cs : List WriterCall) : Nat := (cs.filter WriterCall.isFlush).length

/-- The sequence `WriteSchema, Flush(B1), .., Flush(Bn), Finalize`. -/
def streamCalls (batches : List ColumnDataCollection) : List WriterCall :=
  [WriterCall.WriteSchema] ++ batches.map WriterCall.Flush ++ [WriterCall.Finalize]

/-! ## `DuckDBDecompressZstd` (read_arrow.cpp) -/

/-- The zstd entry points used by the decompressor.  `ZSTD_decompress dstCapacity src
srcSize` gives the returned `size_t` and the bytes left in `dst`. -/
structure ZstdHost where
  ZSTD_decompress : Nat → List Nat → Nat → Nat × List Nat
  ZSTD_isError : Nat → Bool
  ZSTD_getErrorName : Nat → String

structure ArrowBufferView where
  data : List Nat
  size_bytes : Int
  deriving DecidableEq, Repr

/-- What `DuckDBDecompressZstd` leaves behind: the returned code, the destination
buffer and the caller's `ArrowError`. -/
structure DecompressResult where
  code : ArrowErrorCode
  dst : List Nat
  error : ArrowError
  deriving DecidableEq, Repr

/-- The local `size_t code` of `DuckDBDecompressZstd`: what `ZSTD_decompress` returned. -/
def DuckDBDecompressZstd.code (zstd : ZstdHost) (src : ArrowBufferView) (dst_size : Int) : Nat :=
  (zstd.ZSTD_decompress (size_t dst_size) src.data (size_t src.size_bytes)).1 % 2 ^ 64

def DuckDBDecompressZstd (zstd : ZstdHost) (src : ArrowBufferView) (dst_size : Int)
    (error : ArrowError) : DecompressResult :=
  let dst := (zstd.ZSTD_decompress (size_t dst_size) src.data (size_t src.size_bytes)).2
  let code := DuckDBDecompressZstd.code zstd src dst_size
  if zstd.ZSTD_isError code then
    { code := EIO, dst := dst,
      error := ArrowErrorSet error
        ("ZSTD_decompress([buffer with %" ++ PRId64 ++ " bytes] -> [buffer with %" ++ PRId64
          ++ " bytes]) failed with error '%s'")
        [.i64 src.size_bytes, .i64 dst_size, .str (zstd.ZSTD_getErrorName code)] }
  else if dst_size != int64_t code then
    { code := EIO, dst := dst,
      error := ArrowErrorSet error
        ("Expected decompressed size of %" ++ PRId64 ++ " bytes but got %" ++ PRId64 ++ " bytes")
        [.i64 dst_size, .i64 (int64_t code)] }
  else
    { code := NANOARROW_OK, dst := dst, error := error }

/-! ## The input stream adapter and the stream factory (read_arrow_stream.cpp) -/

def Exception.what : Exception → String
  | .InternalException msg => msg
  | .InvalidInputException msg => msg
  | .IOException msg => msg
  | .NanoarrowException code => toString code
  | .Collaborator what => what

/-- DuckDB's `FileHandle` opened for reading: the file's bytes and the read position.
A `broken` handle throws on every read. -/
structure FileHandle where
  path : String
  content : List Nat
  position : Nat
  broken : Bool
  closed : Bool
  deriving DecidableEq, Repr

/-- DuckDB's `FileHandle::Read(buffer, nr_bytes)`: the number of bytes read, the bytes, and the
handle advanced by that many. -/
def FileHandle.Read (self : FileHandle) (nr_bytes : Nat) :
    Except Exception (Nat × List Nat × FileHandle) :=
  if self.broken then
    .error (.IOException "Could not read from file")
  else
    let bytes := (self.content.drop self.position).take nr_bytes
    .ok (bytes.length, bytes, { self with position := self.position + bytes.length })

def FileSystem.OpenFile (fs : FileSystem) (path : String) :
    Except Exception (FileHandle × FileSystem) :=
  match fs.files.find? (fun f => f.1 == path) with
  | none => .error (.IOException "No such file or directory")
  | some f =>
    .ok ({ path := path, content := f.2, position := 0, broken := false, closed := false },
         { fs with opened := fs.opened ++ [path] })

structure DuckDBArrowInputStream where
  handle : FileHandle
  deriving DecidableEq, Repr

/-- What a call of `DuckDBArrowInputStream::Read` leaves behind. -/
structure ReadResult where
  code : ArrowErrorCode
  buf : List Nat
  size_read_out : Int
  error : ArrowError
  stream : DuckDBArrowInputStream
  deriving DecidableEq, Repr

/-- The callback `DuckDBArrowInputStream::Read`: `size_read_out` and `error` come in holding what the
caller's variables hold. -/
def DuckDBArrowInputStream.Read (self : DuckDBArrowInputStream) (buf : List Nat)
    (buf_size_bytes : Int) (size_read_out : Int) (error : ArrowError) : ReadResult :=
  match self.handle.Read (size_t buf_size_bytes) with
  | .ok (n, bytes, handle1) =>
    { code := NANOARROW_OK, buf := bytes, size_read_out := (n : Int), error := error,
      stream := { handle := handle1 } }
  | .error e =>
    { code := EIO, buf := buf, size_read_out := size_read_out,
      error := ArrowErrorSet error "Uncaught exception in DuckDBArrowInputStream::Read(): %s"
        [.str e.what],
      stream := self }

/-- The function `InitDuckDBInputStream`: the handle becomes the private data of the input stream. -/
def InitDuckDBInputStream (handle : FileHandle) : DuckDBArrowInputStream :=
  { handle := handle }

/-- The `ArrowArrayStream` set up by nanoarrow's `ArrowIpcArrayStreamReaderInit`: it owns
the input stream it reads from. -/
structure ArrowArrayStream where
  input_stream : DuckDBArrowInputStream
  deriving DecidableEq, Repr

/-- Sets up the reader around the input stream.  Allocation failure is not modelled. -/
def ArrowIpcArrayStreamReaderInit (input_stream : DuckDBArrowInputStream) : ArrowArrayStream :=
  { input_stream := input_stream }

structure ArrowSchemaWrapper where
  arrow_schema : Option ArrowSchema
  deriving DecidableEq, Repr

/-- What nanoarrow's `ArrowArrayStreamGetSchema` leaves behind. -/
structure GetSchemaResult where
  code : ArrowErrorCode
  out : Option ArrowSchema
  stream : ArrowArrayStream
  error : ArrowError
  deriving DecidableEq, Repr

/-- DuckDB's `ArrowTableType`: the column types it was populated with. -/
structure ArrowTableType where
  columns : List LogicalType
  deriving DecidableEq, Repr

/-- The collaborators of `read_arrow_stream`: nanoarrow's `get_schema` on the IPC reader
and DuckDB's `ArrowTableFunction::PopulateArrowTableType` (schema, `names` and
`return_types` on entry; the table type, `names` and `return_types` on exit) and
`QueryResult::DeduplicateColumns`. -/
structure ReaderHost where
  ArrowArrayStreamGetSchema : ArrowArrayStream → ArrowError → GetSchemaResult
  PopulateArrowTableType : ArrowSchemaWrapper → List String → List LogicalType →
    Except String (ArrowTableType × List String × List LogicalType)
  DeduplicateColumns : List String → List String

/-- The text of the `InvalidInputException` thrown by both `BindInternal`s. -/
def empty_schema_message : String := "Provided table/dataframe must have at least one column"

/-- Modelled from the spec: the macro `THROW_NOT_OK(ExceptionClass, &error, expr)` of
`nanoarrow_errors.hpp`, which is not among the sources.  A failure is surfaced to the
caller, never downgraded: when the code is not `NANOARROW_OK` the named exception is
thrown, carrying the error's text. -/
def THROW_NOT_OK (exception : String → Exception) (error : ArrowError) (code : ArrowErrorCode) :
    Option Exception :=
  if code != NANOARROW_OK then some (exception error.fmt) else none

namespace read_arrow_stream

structure ArrowIpcArrowArrayStreamFactory where
  fs : FileSystem
  src_string : String
  stream : Option ArrowArrayStream
  error : ArrowError
  deriving DecidableEq, Repr

/-- The constructor: `stream` starts released, `error` zeroed. -/
def ArrowIpcArrowArrayStreamFactory.new (context : ClientContext) (src_string : String) :
    ArrowIpcArrowArrayStreamFactory :=
  { fs := context.fs, src_string := src_string, stream := none,
    error := { fmt := "", args := [] } }

structure ArrowArrayStreamWrapper where
  arrow_array_stream : Option ArrowArrayStream
  deriving DecidableEq, Repr

/-- The static member `ArrowIpcArrowArrayStreamFactory::Produce`: the wrapper and the factory the stream
was moved out of. -/
def ArrowIpcArrowArrayStreamFactory.Produce (factory : ArrowIpcArrowArrayStreamFactory) :
    Except Exception (ArrowArrayStreamWrapper × ArrowIpcArrowArrayStreamFactory) :=
  match factory.stream with
  | none => .error (.InternalException "ArrowArrayStream was not initialized")
  | some stream =>
    .ok ({ arrow_array_stream := some stream }, { factory with stream := none })

/-- What `GetSchema` leaves behind: the exception thrown, if any, the factory and the
caller's schema wrapper. -/
structure GetSchemaOutcome where
  thrown : Option Exception
  self : ArrowIpcArrowArrayStreamFactory
  schema : ArrowSchemaWrapper
  deriving DecidableEq, Repr

/-- The member function `ArrowIpcArrowArrayStreamFactory::GetSchema`. -/
def ArrowIpcArrowArrayStreamFactory.GetSchema (host : ReaderHost)
    (self : ArrowIpcArrowArrayStreamFactory) (schema : ArrowSchemaWrapper) : GetSchemaOutcome :=
  match self.stream with
  | none =>
    { thrown := some (.InternalException "ArrowArrayStream was released by another thread/library"),
      self := self, schema := schema }
  | some stream =>
    let r := host.ArrowArrayStreamGetSchema stream self.error
    let self1 := { self with stream := some r.stream, error := r.error }
    let schema1 : ArrowSchemaWrapper := { arrow_schema := r.out }
    { thrown := THROW_NOT_OK Exception.IOException r.error r.code,
      self := self1, schema := schema1 }

/-- The member function `ArrowIpcArrowArrayStreamFactory::InitStream`. -/
def ArrowIpcArrowArrayStreamFactory.InitStream (self : ArrowIpcArrowArrayStreamFactory) :
    Except Exception ArrowIpcArrowArrayStreamFactory :=
  match self.stream with
  | some _ => .error (.InternalException "ArrowArrayStream is already initialized")
  | none =>
    match self.fs.OpenFile self.src_string with
    | .error e => .error e
    | .ok (handle, fs1) =>
      let input_stream := InitDuckDBInputStream handle
      .ok { self with fs := fs1, stream := some (ArrowIpcArrayStreamReaderInit input_stream) }

/-- The bind data `ReadArrowStream::Data`: the `ArrowScanFunctionData` members used here and the
factory it keeps alive. -/
structure Data where
  factory : ArrowIpcArrowArrayStreamFactory
  schema_root : ArrowSchemaWrapper
  arrow_table : ArrowTableType
  all_types : List LogicalType
  lines_read : Nat
  deriving DecidableEq, Repr

def Data.new (factory : ArrowIpcArrowArrayStreamFactory) : Data :=
  { factory := factory, schema_root := { arrow_schema := none },
    arrow_table := { columns := [] }, all_types := [], lines_read := 0 }

/-- What `BindInternal` leaves behind: the exception thrown, if any; `res` as it stands
when `BindInternal` exits (the returned bind data when nothing is thrown); and the
caller's `return_types` and `names` (passed by reference). -/
structure BindResult where
  thrown : Option Exception
  res : Data
  return_types : List LogicalType
  names : List String
  deriving DecidableEq, Repr

/-- The function `ReadArrowStream::BindInternal` of read_arrow_stream.cpp. -/
def BindInternal (host : ReaderHost) (context : ClientContext) (src : String)
    (return_types : List LogicalType) (names : List String) : BindResult :=
  let stream_factory := ArrowIpcArrowArrayStreamFactory.new context src
  let res := Data.new stream_factory
  match res.factory.InitStream with
  | .error e => { thrown := some e, res := res, return_types := return_types, names := names }
  | .ok factory1 =>
    let res1 := { res with factory := factory1 }
    let g := res1.factory.GetSchema host res1.schema_root
    let res2 := { res1 with factory := g.self, schema_root := g.schema }
    match g.thrown with
    | some e => { thrown := some e, res := res2, return_types := return_types, names := names }
    | none =>
      match host.PopulateArrowTableType res2.schema_root names return_types with
      | .error what =>
        { thrown := some (.Collaborator what), res := res2,
          return_types := return_types, names := names }
      | .ok (arrow_table, names1, return_types1) =>
        let res3 := { res2 with arrow_table := arrow_table }
        let names2 := host.DeduplicateColumns names1
        let res4 := { res3 with all_types := return_types1 }
        if return_types1.isEmpty then
          { thrown := some (.InvalidInputException empty_schema_message), res := res4,
            return_types := return_types1, names := names2 }
        else
          { thrown := none, res := res4, return_types := return_types1, names := names2 }

end read_arrow_stream

/-! ## `read_arrow` (read_arrow.cpp) -/

namespace read_arrow

/-- The collaborators of `read_arrow`.  Its `ArrowIpcArrowArrayStreamFactory`
(`ipc/stream_factory.hpp`) is not among the sources: `F` is the factory's state,
`InitReader` and `GetFileSchema` are its member functions (each may throw), and
`PopulateArrowTableType` is the DuckDB overload taking the database configuration. -/
structure ReadArrowHost (F : Type) where
  newFactory : ClientContext → String → F
  InitReader : F → Except String F
  GetFileSchema : F → ArrowSchemaWrapper → Except String (F × ArrowSchemaWrapper)
  PopulateArrowTableType : ArrowSchemaWrapper → List String → List LogicalType →
    Except String (ArrowTableType × List String × List LogicalType)
  DeduplicateColumns : List String → List String

structure Data (F : Type) where
  factory : F
  schema_root : ArrowSchemaWrapper
  arrow_table : ArrowTableType
  all_types : List LogicalType
  lines_read : Nat

def Data.new {F : Type} (factory : F) : Data F :=
  { factory := factory, schema_root := { arrow_schema := none },
    arrow_table := { columns := [] }, all_types := [], lines_read := 0 }

structure BindResult (F : Type) where
  thrown : Option Exception
  res : Data F
  return_types : List LogicalType
  names : List String

/-- The function `ReadArrowStream::BindInternal` of read_arrow.cpp. -/
def BindInternal {F : Type} (host : ReadArrowHost F) (context : ClientContext) (src : String)
    (return_types : List LogicalType) (names : List String) : BindResult F :=
  let stream_factory := host.newFactory context src
  let res := Data.new stream_factory
  match host.InitReader res.factory with
  | .error what =>
    { thrown := some (.Collaborator what), res := res,
      return_types := return_types, names := names }
  | .ok factory1 =>
    let res1 := { res with factory := factory1 }
    match host.GetFileSchema res1.factory res1.schema_root with
    | .error what =>
      { thrown := some (.Collaborator what), res := res1,
        return_types := return_types, names := names }
    | .ok (factory2, schema_root) =>
      let res2 := { res1 with factory := factory2, schema_root := schema_root }
      match host.PopulateArrowTableType res2.schema_root names return_types with
      | .error what =>
        { thrown := some (.Collaborator what), res := res2,
          return_types := return_types, names := names }
      | .ok (arrow_table, names1, return_types1) =>
        let res3 := { res2 with arrow_table := arrow_table }
        let names2 := host.DeduplicateColumns names1
        let res4 := { res3 with all_types := return_types1 }
        if return_types1.isEmpty then
          { thrown := some (.InvalidInputException empty_schema_message),
            res := res4, return_types := return_types1, names := names2 }
        else
          { thrown := none, res := res4, return_types := return_types1, names := names2 }

end read_arrow

/-! ## `Scan` (read_arrow_stream.cpp) -/

/-- DuckDB's `STANDARD_VECTOR_SIZE`. -/
def STANDARD_VECTOR_SIZE : Nat := 2048

/-- The `idx_t` subtraction `a - b`: it wraps around when `b` exceeds `a`. -/
def idx_t_sub (a b : Nat) : Nat := (a % 2 ^ 64 + 2 ^ 64 - b % 2 ^ 64) % 2 ^ 64

/-- The `idx_t` addition `a + b`. -/
def idx_t_add (a b : Nat) : Nat := (a + b) % 2 ^ 64

/-- DuckDB's `NumericCast<idx_t>` of an `int64_t`: a negative value throws. -/
def NumericCast_idx_t (value : Int) : Except Exception Nat :=
  if value < 0 then .error (.InternalException "Information loss on integer cast")
  else .ok value.toNat

/-- The `ArrowArray` of a chunk: its `length` field, an `int64_t`. -/
structure ArrowArray where
  length : Int
  deriving DecidableEq, Repr

structure ArrowArrayWrapper where
  arrow_array : ArrowArray
  deriving DecidableEq, Repr

/-- DuckDB's `DataChunk`: its cardinality (`size()`) and the content of its columns. -/
structure DataChunk where
  count : Nat
  data : List (List Int)
  deriving DecidableEq, Repr

def DataChunk.size (self : DataChunk) : Nat := self.count

def DataChunk.Reset (self : DataChunk) : DataChunk :=
  { count := 0, data := self.data.map (fun _ => []) }

def DataChunk.SetCardinality (self : DataChunk) (count : Nat) : DataChunk :=
  { self with count := count }

/-- DuckDB's `DataChunk::ReferenceColumns`: the chunk references the listed columns of
`other` and takes its cardinality. -/
def DataChunk.ReferenceColumns (_self : DataChunk) (other : DataChunk) (column_ids : List Nat) :
    DataChunk :=
  { count := other.size, data := column_ids.map (fun i => other.data.getD i []) }

def DataChunk.Verify (self : DataChunk) : DataChunk := self

/-- The members of DuckDB's `ArrowScanLocalState` that `Scan` uses. -/
structure ArrowScanLocalState where
  chunk : ArrowArrayWrapper
  chunk_offset : Nat
  all_columns : DataChunk
  deriving DecidableEq, Repr

/-- The members of DuckDB's `ArrowScanGlobalState` that `Scan` uses, and the chunks the
stream has still to deliver. -/
structure ArrowScanGlobalState where
  projection_ids : List Nat
  pending : List ArrowArrayWrapper
  done : Bool
  deriving DecidableEq, Repr

def ArrowScanGlobalState.CanRemoveFilterColumns (self : ArrowScanGlobalState) : Bool :=
  !self.projection_ids.isEmpty

/-- The collaborators of `Scan`: DuckDB's `ArrowTableFunction::ArrowScanParallelStateNext`
(whether a chunk was obtained, the local and the global state it leaves) and
`ArrowTableFunction::ArrowToDuckDB` (the column content it writes into the chunk it is
given, from the scan state, the table's columns, that chunk and the index of the first
row; it leaves the chunk's cardinality and the scan state alone). -/
structure ScanHost where
  ArrowScanParallelStateNext : ArrowScanLocalState → ArrowScanGlobalState →
    Bool × ArrowScanLocalState × ArrowScanGlobalState
  ArrowToDuckDB : ArrowScanLocalState → ArrowTableType → DataChunk → Nat → List (List Int)

namespace read_arrow_stream

structure TableFunctionInput where
  bind_data : Data
  local_state : Option ArrowScanLocalState
  global_state : ArrowScanGlobalState
  deriving DecidableEq, Repr

/-- What a call of `Scan` leaves behind: the exception thrown, if any; the bind data and
the scan states; the caller's output chunk; and the rows handed to `ArrowToDuckDB`, as
the `chunk_offset` of the scan state and the cardinality of the chunk at that call
(`none` when `Scan` returned before the call). -/
structure ScanResult where
  thrown : Option Exception
  data_p : TableFunctionInput
  output : DataChunk
  scanned : Option (Nat × Nat)
  deriving DecidableEq, Repr

/-- The step "out of tuples in this chunk" of `Scan`: when `chunk_offset` has reached
the chunk's length the next chunk is asked for.  Gives whether `Scan` goes on, and the
scan states. -/
def Scan.nextChunk (host : ScanHost) (state : ArrowScanLocalState)
    (global_state : ArrowScanGlobalState) : Bool × ArrowScanLocalState × ArrowScanGlobalState :=
  if state.chunk_offset >= size_t state.chunk.arrow_array.length then
    host.ArrowScanParallelStateNext state global_state
  else
    (true, state, global_state)

/-- The function `ReadArrowStream::Scan` of read_arrow_stream.cpp. -/
def Scan (host : ScanHost) (data_p : TableFunctionInput) (output : DataChunk) : ScanResult :=
  match data_p.local_state with
  | none => { thrown := none, data_p := data_p, output := output, scanned := none }
  | some state0 =>
    let data := data_p.bind_data
    match Scan.nextChunk host state0 data_p.global_state with
    | (false, state, global_state) =>
      { thrown := none,
        data_p := { data_p with local_state := some state, global_state := global_state },
        output := output, scanned := none }
    | (true, state, global_state) =>
      match NumericCast_idx_t state.chunk.arrow_array.length with
      | .error e =>
        { thrown := some e,
          data_p := { data_p with local_state := some state, global_state := global_state },
          output := output, scanned := none }
      | .ok length =>
        let output_size := min STANDARD_VECTOR_SIZE (idx_t_sub length state.chunk_offset)
        let data1 := { data with lines_read := idx_t_add data.lines_read output_size }
        if global_state.CanRemoveFilterColumns then
          let all_columns1 := (state.all_columns.Reset).SetCardinality output_size
          let state1 := { state with all_columns := all_columns1 }
          let all_columns2 : DataChunk :=
            { all_columns1 with
              data := host.ArrowToDuckDB state1 data1.arrow_table all_columns1
                        (idx_t_sub data1.lines_read output_size) }
          let state2 := { state1 with all_columns := all_columns2 }
          let output1 := output.ReferenceColumns all_columns2 global_state.projection_ids
          let output2 := output1.Verify
          let state3 := { state2 with chunk_offset := idx_t_add state2.chunk_offset output2.size }
          { thrown := none,
            data_p := { bind_data := data1, local_state := some state3,
                        global_state := global_state },
            output := output2,
            scanned := some (state1.chunk_offset, all_columns1.size) }
        else
          let output1 := output.SetCardinality output_size
          let output2 : DataChunk :=
            { output1 with
              data := host.ArrowToDuckDB state data1.arrow_table output1
                        (idx_t_sub data1.lines_read output_size) }
          let output3 := output2.Verify
          let state1 := { state with chunk_offset := idx_t_add state.chunk_offset output3.size }
          { thrown := none,
            data_p := { bind_data := data1, local_state := some state1,
                        global_state := global_state },
            output := output3,
            scanned := some (state.chunk_offset, output1.size) }

/-- The calls `Scan, Scan, ..` (`n` of them) made by one caller on the same input and
output, stopping after a call that throws: the rows handed to `ArrowToDuckDB`, in call
order, and what the last call left behind. -/
def Scan.repeated (host : ScanHost) :
    Nat → TableFunctionInput → DataChunk → List (Nat × Nat) × TableFunctionInput × DataChunk
  | 0, data_p, output => ([], data_p, output)
  | n + 1, data_p, output =>
    let r := Scan host data_p output
    if r.thrown.isSome then
      (r.scanned.toList, r.data_p, r.output)
    else
      let rest := Scan.repeated host n r.data_p r.output
      (r.scanned.toList ++ rest.1, rest.2.1, rest.2.2)

end read_arrow_stream

/-- Whether the row ranges (first row, count), in order, are non-empty, start at `lo`,
each begin where the one before ended, and end at `hi`: then every row of `lo .. hi - 1`
lies in exactly one range. -/
def tilesRows (lo hi : Nat) : List (Nat × Nat) → Bool
  | [] => lo == hi
  | (first, count) :: rest => first == lo && 0 < count && tilesRows (lo + count) hi rest

/-! ## Fixtures: concrete collaborators and inputs -/

/-- A converter that names one child per column and attaches no metadata, and an
encoder that frames a message as continuation marker, a length byte and padding. -/
def fixtureWriterHost : WriterHost :=
  { ToArrowSchema := fun types names _ => .ok { children := names.zip types, metadata := none },
    encodeSchema := fun schema =>
      .ok ([0xFF, 0xFF, 0xFF, 0xFF, 8, 0, 0, 0] ++ [1, schema.children.length, 0, 0, 0, 0, 0, 0]),
    encodeBatch := fun _ _ buffer =>
      .ok ([0xFF, 0xFF, 0xFF, 0xFF, 8, 0, 0, 0] ++ [3, buffer.rows.length, 0, 0, 0, 0, 0, 0]) }

def fixtureContext : ClientContext :=
  { properties := { time_zone := "UTC" },
    fs := { files := [("empty.arrows", [0xFF, 0xFF, 0xFF, 0xFF, 8, 0, 0, 0, 1, 0, 0, 0, 0, 0, 0, 0]),
                      ("one.arrows", [0xFF, 0xFF, 0xFF, 0xFF, 8, 0, 0, 0, 1, 1, 0, 0, 0, 0, 0, 0])],
            capacity := 1024, opened := [] } }

/-- A writer before `InitSchema` and `InitOutputFile`, as the constructor's member
initializers leave it. -/
def fixtureBlankWriter : ArrowStreamWriter :=
  { options := { time_zone := "UTC" },
    serializer := ColumnDataCollectionSerializer.new { time_zone := "UTC" },
    file_name := "out.arrows",
    logical_types := ["INTEGER"],
    writer := none,
    row_group_count := 0,
    schema := none }

/-- The writer `ArrowStreamWriter.new` builds for one INTEGER column named `a`. -/
def fixtureWriter : ArrowStreamWriter :=
  { options := { time_zone := "UTC" },
    serializer :=
      { options := { time_zone := "UTC" },
        schema := some { children := [("a", "INTEGER")], metadata := none },
        logical_types := ["INTEGER"], buffered := [] },
    file_name := "out.arrows",
    logical_types := ["INTEGER"],
    writer := some { path := "out.arrows", data := [], closed := false, capacity := 1024 },
    row_group_count := 0,
    schema := some { children := [("a", "INTEGER")], metadata := none } }

/-- A stand-in codec: the first source byte is a header, the rest is stored data.  An
empty source or a wrong source size is the error `-72`, a destination that is too small
the error `-70`; error codes are the `size_t` values above `-120`. -/
def fixtureZstd : ZstdHost :=
  { ZSTD_decompress := fun dstCapacity src srcSize =>
      if src.length != srcSize || src.isEmpty then (2 ^ 64 - 72, [])
      else if dstCapacity < src.tail.length then (2 ^ 64 - 70, [])
      else (src.tail.length, src.tail),
    ZSTD_isError := fun code => decide (2 ^ 64 - 120 < code),
    ZSTD_getErrorName := fun code =>
      if code = 2 ^ 64 - 70 then "Destination buffer is too small"
      else if code = 2 ^ 64 - 72 then "Src size is incorrect"
      else "Unspecified error code" }

/-- A stand-in for nanoarrow's IPC reader and DuckDB's table-type population: the schema
message is 16 bytes, read through `DuckDBArrowInputStream.Read`, and its tenth byte is
the number of columns (each named `c`, of type INTEGER). -/
def fixtureReaderHost : ReaderHost :=
  { ArrowArrayStreamGetSchema := fun stream error =>
      let r := stream.input_stream.Read [] 16 0 error
      if r.code != NANOARROW_OK then
        { code := r.code, out := none, stream := { input_stream := r.stream }, error := r.error }
      else if r.size_read_out != 16 then
        { code := 22, out := none, stream := { input_stream := r.stream },
          error := ArrowErrorSet r.error "Expected 16 bytes" [] }
      else
        { code := NANOARROW_OK,
          out := some { children := List.replicate (r.buf.getD 9 0) ("c", "i"), metadata := none },
          stream := { input_stream := r.stream }, error := r.error },
    PopulateArrowTableType := fun schema names return_types =>
      match schema.arrow_schema with
      | none => .error "released schema"
      | some s =>
        .ok ({ columns := s.children.map (fun _ => "INTEGER") },
             names ++ s.children.map (fun c => c.1),
             return_types ++ s.children.map (fun _ => "INTEGER")),
    DeduplicateColumns := fun names => names }

/-- A `read_arrow` factory that behaves like the one of `read_arrow_stream`. -/
def fixtureReadArrowHost : read_arrow.ReadArrowHost read_arrow_stream.ArrowIpcArrowArrayStreamFactory :=
  { newFactory := read_arrow_stream.ArrowIpcArrowArrayStreamFactory.new,
    InitReader := fun f =>
      match f.InitStream with
      | .error e => .error e.what
      | .ok f1 => .ok f1,
    GetFileSchema := fun f schema =>
      match (f.GetSchema fixtureReaderHost schema).thrown with
      | some e => .error e.what
      | none => .ok ((f.GetSchema fixtureReaderHost schema).self,
                     (f.GetSchema fixtureReaderHost schema).schema),
    PopulateArrowTableType := fixtureReaderHost.PopulateArrowTableType,
    DeduplicateColumns := fixtureReaderHost.DeduplicateColumns }

/-- The fixture writer on a destination that accepts no more than 8 bytes: too few for
a 16-byte message. -/
def fixtureFullWriter : ArrowStreamWriter :=
  { fixtureWriter with
    writer := some { path := "out.arrows", data := [], closed := false, capacity := 8 } }

/-- An input stream over a four-byte file, nothing read yet. -/
def fixtureInputStream : DuckDBArrowInputStream :=
  { handle := { path := "in.arrows", content := [10, 20, 30, 40], position := 0,
                broken := false, closed := false } }

/-- The same input stream over a handle whose reads throw. -/
def fixtureBrokenInputStream : DuckDBArrowInputStream :=
  { handle := { path := "in.arrows", content := [10, 20, 30, 40], position := 0,
                broken := true, closed := false } }

/-- A stand-in for DuckDB's scan collaborators: the next chunk is the first pending
one that has rows, with `chunk_offset` back at 0; the conversion writes, into every
column, the indexes of the rows it converts. -/
def fixtureScanHost : ScanHost :=
  { ArrowScanParallelStateNext := fun state global_state =>
      if global_state.done then (false, state, global_state)
      else
        match global_state.pending.dropWhile (fun c => c.arrow_array.length == 0) with
        | [] => (false, { state with chunk_offset := 0 },
                 { global_state with pending := [], done := true })
        | c :: rest => (true, { state with chunk := c, chunk_offset := 0 },
                        { global_state with pending := rest }),
    ArrowToDuckDB := fun state _ chunk _ =>
      chunk.data.map (fun _ =>
        (List.range chunk.count).map (fun i => ((state.chunk_offset + i : Nat) : Int))) }

/-- A scan in the middle of a 5000-row chunk: 4096 rows have been emitted, no chunk is
pending, no projection. -/
def fixtureScanInput : read_arrow_stream.TableFunctionInput :=
  { bind_data := { (read_arrow_stream.Data.new
                      (read_arrow_stream.ArrowIpcArrowArrayStreamFactory.new fixtureContext
                        "one.arrows")) with lines_read := 4096 },
    local_state := some { chunk := { arrow_array := { length := 5000 } }, chunk_offset := 4096,
                          all_columns := { count := 0, data := [[]] } },
    global_state := { projection_ids := [], pending := [], done := false } }

/-- A scan at the start of a 5000-row chunk. -/
def fixtureScanStart : read_arrow_stream.TableFunctionInput :=
  { bind_data := read_arrow_stream.Data.new
      (read_arrow_stream.ArrowIpcArrowArrayStreamFactory.new fixtureContext "one.arrows"),
    local_state := some { chunk := { arrow_array := { length := 5000 } }, chunk_offset := 0,
                          all_columns := { count := 0, data := [[]] } },
    global_state := { projection_ids := [], pending := [], done := false } }

/-! ## Theorems: `ArrowStreamWriter` -/

/-- The metadata loop appends, for every item, the item's value as the key and the
never-assigned local `value` as the value. -/
theorem InitSchema_body_foldl (metadata : List (String × String)) (st : MetadataLoop) :
    (metadata.foldl ArrowStreamWriter.InitSchema.body st).metadata_packed
        = st.metadata_packed ++ metadata.map (fun item => (item.2, st.value))
      ∧ (metadata.foldl ArrowStreamWriter.InitSchema.body st).value = st.value := by
  induction metadata generalizing st with
  | nil => simp
  | cons item rest ih =>
    have h := ih (ArrowStreamWriter.InitSchema.body st item)
    simp only [List.foldl_cons, List.map_cons]
    rw [h.1, h.2]
    simp [ArrowStreamWriter.InitSchema.body, ArrowMetadataBuilderAppend]

/-- C1 (evaluation at the failing input): with the one metadata pair `("k", "v")`,
`InitSchema` succeeds and the metadata block it attaches holds the single pair whose key
is `"v"` (the item's value) and whose value is whatever the uninitialised local `value`
held; it is not the block `[("k", "v")]`, whatever the uninitialised locals held. -/
theorem InitSchema_metadata_key_is_item_value (key_uninit value_uninit : ArrowStringView) :
    ∃ w, fixtureBlankWriter.InitSchema fixtureWriterHost ["INTEGER"] ["a"] [("k", "v")]
            key_uninit value_uninit = .ok w
      ∧ w.schema = some { children := [("a", "INTEGER")], metadata := some [("v", value_uninit)] }
      ∧ w.schema ≠ some { children := [("a", "INTEGER")], metadata := some [("k", "v")] } := by
  refine ⟨_, rfl, rfl, ?_⟩
  intro h
  have h1 := Option.some.inj h
  have h2 := congrArg ArrowSchema.metadata h1
  simp [ArrowSchemaSetMetadata, ArrowSchemaDeepCopy, ArrowStreamWriter.InitSchema.body,
    ArrowMetadataBuilderAppend, ArrowMetadataBuilderInit] at h2

/-- C10: when the metadata list is empty and the converter yields `tmp_schema` for
`(logical_types, column_names)`, `InitSchema` succeeds; the writer's schema is exactly
`tmp_schema` (its metadata pointer is the converter's: nothing is attached), the
serializer is initialised with that schema and the column types, and no other member of
the writer changes. -/
theorem InitSchema_empty_metadata (host : WriterHost) (self : ArrowStreamWriter)
    (logical_types : List LogicalType) (column_names : List String)
    (key_uninit value_uninit : ArrowStringView) (tmp_schema : ArrowSchema)
    (hconv : host.ToArrowSchema logical_types column_names self.options = .ok tmp_schema) :
    ∃ w, self.InitSchema host logical_types column_names [] key_uninit value_uninit = .ok w
      ∧ w.schema = some tmp_schema
      ∧ (∀ s, w.schema = some s → s.metadata = tmp_schema.metadata)
      ∧ w.serializer = self.serializer.Init tmp_schema logical_types
      ∧ w.serializer.schema = some tmp_schema
      ∧ w.serializer.logical_types = logical_types
      ∧ w.writer = self.writer ∧ w.row_group_count = self.row_group_count
      ∧ w.logical_types = self.logical_types ∧ w.file_name = self.file_name := by
  refine ⟨{ self with schema := some tmp_schema,
                      serializer := self.serializer.Init tmp_schema logical_types }, ?_, rfl, ?_,
    rfl, rfl, rfl, rfl, rfl, rfl, rfl⟩
  · simp [ArrowStreamWriter.InitSchema, hconv]
  · intro s hs
    have := Option.some.inj hs
    rw [← this]

/-- C10 at a concrete input: one INTEGER column `a`, no metadata; the converter's schema
carries no metadata block and neither does the writer's. -/
theorem InitSchema_empty_metadata_witness :
    ∃ w, fixtureBlankWriter.InitSchema fixtureWriterHost ["INTEGER"] ["a"] [] "" "" = .ok w
      ∧ w.schema = some { children := [("a", "INTEGER")], metadata := none }
      ∧ w.serializer.schema = some { children := [("a", "INTEGER")], metadata := none } := by
  obtain ⟨w, h1, h2, _, _, h5, _⟩ :=
    InitSchema_empty_metadata fixtureWriterHost fixtureBlankWriter ["INTEGER"] ["a"] "" ""
      { children := [("a", "INTEGER")], metadata := none } rfl
  exact ⟨w, h1, h2, h5⟩

/-- C2: on a writer whose destination is open and has room for 8 more bytes, `Finalize`
succeeds; the destination's content grows by exactly the 8 bytes
`FF FF FF FF 00 00 00 00`, the destination ends closed, and nothing else in the writer
changes. -/
theorem Finalize_writes_end_of_stream_and_closes (self : ArrowStreamWriter)
    (writer : BufferedFileWriter) (hw : self.writer = some writer)
    (hopen : writer.closed = false) (hroom : writer.data.length + 8 ≤ writer.capacity) :
    self.Finalize = .ok { self with writer := some { writer with
        data := writer.data ++ [0xFF, 0xFF, 0xFF, 0xFF, 0x00, 0x00, 0x00, 0x00],
        closed := true } } := by
  have hcap : ¬ writer.capacity < writer.data.length + 8 := by omega
  simp [ArrowStreamWriter.Finalize, deref, hw, BufferedFileWriter.WriteData,
    BufferedFileWriter.Close, hopen, end_of_stream, hcap]

/-- C2 at a concrete input: finalizing a writer that has written nothing leaves exactly
the end-of-stream marker in a closed destination. -/
theorem Finalize_writes_end_of_stream_and_closes_witness :
    fixtureWriter.Finalize = .ok
      { fixtureWriter with
        writer := some { path := "out.arrows",
                         data := [0xFF, 0xFF, 0xFF, 0xFF, 0x00, 0x00, 0x00, 0x00],
                         closed := true, capacity := 1024 } } :=
  Finalize_writes_end_of_stream_and_closes fixtureWriter
    { path := "out.arrows", data := [], closed := false, capacity := 1024 } rfl rfl (by decide)

/-! ### What each call does to the writer -/

theorem WriteData_ok (writer : BufferedFileWriter) (bytes : List Nat)
    (hopen : writer.closed = false) (hroom : writer.data.length + bytes.length ≤ writer.capacity) :
    writer.WriteData bytes bytes.length = .ok { writer with data := writer.data ++ bytes } := by
  have hcap : ¬ writer.capacity < writer.data.length + bytes.length := by omega
  simp [BufferedFileWriter.WriteData, hopen, hcap]

/-- A write that succeeds was made on an open destination with room for the bytes, and
appends exactly the bytes. -/
theorem WriteData_inv (writer writer1 : BufferedFileWriter) (bytes : List Nat)
    (h : writer.WriteData bytes bytes.length = .ok writer1) :
    writer.closed = false ∧ writer.data.length + bytes.length ≤ writer.capacity
      ∧ writer1 = { writer with data := writer.data ++ bytes } := by
  unfold BufferedFileWriter.WriteData at h
  by_cases hc : writer.closed = true
  · simp [hc] at h
  · by_cases hcap : writer.capacity < writer.data.length + bytes.length
    · simp [hc, hcap] at h
    · have hc1 : writer.closed = false := by simpa using hc
      simp [hc, hcap] at h
      refine ⟨hc1, by omega, ?_⟩
      rw [← h, hc1]

theorem WriteSchema_ok (host : WriterHost) (self : ArrowStreamWriter) (schema : ArrowSchema)
    (writer : BufferedFileWriter) (message : List Nat)
    (hschema : self.serializer.schema = some schema)
    (henc : host.encodeSchema schema = .ok message)
    (hw : self.writer = some writer) (hopen : writer.closed = false)
    (hroom : writer.data.length + message.length ≤ writer.capacity) :
    self.WriteSchema host = .ok { self with
      serializer := { self.serializer with buffered := [] },
      writer := some { writer with data := writer.data ++ message } } := by
  simp [ArrowStreamWriter.WriteSchema, ColumnDataCollectionSerializer.SerializeSchema, hschema,
    henc, deref, hw, ColumnDataCollectionSerializer.Flush, WriteData_ok writer message hopen hroom]

theorem Flush_ok (host : WriterHost) (self : ArrowStreamWriter) (buffer : ColumnDataCollection)
    (schema : ArrowSchema) (writer : BufferedFileWriter) (message : List Nat)
    (hschema : self.serializer.schema = some schema)
    (henc : host.encodeBatch schema self.serializer.logical_types buffer = .ok message)
    (hw : self.writer = some writer) (hopen : writer.closed = false)
    (hroom : writer.data.length + message.length ≤ writer.capacity) :
    self.Flush host buffer =
      { thrown := none,
        self := { self with
          serializer := { self.serializer with buffered := [] },
          writer := some { writer with data := writer.data ++ message },
          row_group_count := idx_t_succ self.row_group_count },
        buffer := buffer.Reset } := by
  simp [ArrowStreamWriter.Flush, ColumnDataCollectionSerializer.Serialize, hschema,
    henc, deref, hw, ColumnDataCollectionSerializer.Flush, WriteData_ok writer message hopen hroom]

theorem Finalize_ok (self : ArrowStreamWriter) (writer : BufferedFileWriter)
    (hw : self.writer = some writer) (hopen : writer.closed = false)
    (hroom : writer.data.length + 8 ≤ writer.capacity) :
    self.Finalize = .ok { self with writer := some { writer with
        data := writer.data ++ end_of_stream, closed := true } } := by
  have hcap : ¬ writer.capacity < writer.data.length + 8 := by omega
  simp [ArrowStreamWriter.Finalize, deref, hw, BufferedFileWriter.WriteData,
    BufferedFileWriter.Close, hopen, end_of_stream, hcap]

/-- The writer the constructor returns: the schema is set and bound to the serializer
together with the column types, the destination is open and empty with the file
system's capacity, and no row group has been counted. -/
theorem new_ok (host : WriterHost) (context : ClientContext) (fs : FileSystem)
    (file_path : String) (logical_types : List LogicalType) (column_names : List String)
    (metadata : List (String × String)) (key_uninit value_uninit : ArrowStringView)
    (w0 : ArrowStreamWriter)
    (hnew : ArrowStreamWriter.new host context fs file_path logical_types column_names metadata
      key_uninit value_uninit = .ok w0) :
    ∃ schema, w0.schema = some schema ∧ w0.serializer.schema = some schema
      ∧ w0.serializer.logical_types = logical_types
      ∧ w0.logical_types = logical_types
      ∧ w0.writer = some { path := file_path, data := [], closed := false, capacity := fs.capacity }
      ∧ w0.row_group_count = 0 := by
  unfold ArrowStreamWriter.new at hnew
  simp only [ArrowStreamWriter.InitSchema, ArrowStreamWriter.InitOutputFile,
    BufferedFileWriter.new] at hnew
  cases hconv : host.ToArrowSchema logical_types column_names context.GetClientProperties with
  | error what => simp [hconv] at hnew
  | ok tmp_schema =>
    simp only [hconv] at hnew
    by_cases hex : (fs.files.any fun f => f.1 == file_path) = true
    · simp [hex] at hnew
    · simp only [hex] at hnew
      simp only [Bool.false_eq_true, if_false, Except.ok.injEq] at hnew
      subst hnew
      exact ⟨_, rfl, rfl, rfl, rfl, rfl, rfl⟩

theorem calls_cons_ok (host : WriterHost) (self self1 : ArrowStreamWriter) (c : WriterCall)
    (cs : List WriterCall) (h : self.call host c = .ok self1) :
    self.calls host (c :: cs) = self1.calls host cs := by
  simp only [ArrowStreamWriter.calls, h]

/-- A `WriteSchema` that succeeds found the serializer bound to a schema that encodes and
the destination open, and appended the schema message to it. -/
theorem WriteSchema_inv (host : WriterHost) (self self1 : ArrowStreamWriter)
    (hok : self.WriteSchema host = .ok self1) :
    ∃ schema message writer, self.serializer.schema = some schema
      ∧ host.encodeSchema schema = .ok message
      ∧ self.writer = some writer ∧ writer.closed = false
      ∧ writer.data.length + message.length ≤ writer.capacity
      ∧ self1 = { self with
          serializer := { self.serializer with buffered := [] },
          writer := some { writer with data := writer.data ++ message } } := by
  unfold ArrowStreamWriter.WriteSchema ColumnDataCollectionSerializer.SerializeSchema at hok
  cases hs : self.serializer.schema with
  | none => simp [hs] at hok
  | some schema =>
    simp only [hs] at hok
    cases he : host.encodeSchema schema with
    | error what => simp [he] at hok
    | ok message =>
      simp only [he] at hok
      cases hsw : self.writer with
      | none => simp [deref, hsw] at hok
      | some writer =>
        simp only [deref, hsw, ColumnDataCollectionSerializer.Flush] at hok
        cases hwd : writer.WriteData message message.length with
        | error e => simp [hwd] at hok
        | ok writer1 =>
          simp only [hwd, Except.ok.injEq] at hok
          obtain ⟨hopen, hroom, hwr⟩ := WriteData_inv writer writer1 message hwd
          refine ⟨schema, message, writer, rfl, he, rfl, hopen, hroom, ?_⟩
          rw [← hok, hwr]
          simp only [hs]

/-! ### The row-group counter -/

theorem Flush_row_group_count (host : WriterHost) (self : ArrowStreamWriter)
    (buffer : ColumnDataCollection) (hok : (self.Flush host buffer).thrown = none) :
    (self.Flush host buffer).self.row_group_count = idx_t_succ self.row_group_count := by
  unfold ArrowStreamWriter.Flush at hok ⊢
  cases h1 : self.serializer.Serialize host buffer with
  | error e => simp [h1] at hok
  | ok serializer1 =>
    simp only [h1] at hok ⊢
    cases h2 : deref self.writer with
    | error e => simp [h2] at hok
    | ok writer =>
      simp only [h2] at hok ⊢
      cases h3 : serializer1.Flush writer with
      | error e => simp [h3] at hok
      | ok p => simp

theorem FlushSerializer_row_group_count (self self1 : ArrowStreamWriter)
    (serializer serializer1 : ColumnDataCollectionSerializer)
    (hok : self.FlushSerializer serializer = .ok (self1, serializer1)) :
    self1.row_group_count = idx_t_succ self.row_group_count := by
  unfold ArrowStreamWriter.FlushSerializer at hok
  cases h2 : deref self.writer with
  | error e => simp [h2] at hok
  | ok writer =>
    simp only [h2] at hok
    cases h3 : serializer.Flush writer with
    | error e => simp [h3] at hok
    | ok p =>
      simp only [h3, Except.ok.injEq, Prod.mk.injEq] at hok
      rw [← hok.1]

theorem WriteSchema_row_group_count (host : WriterHost) (self self1 : ArrowStreamWriter)
    (hok : self.WriteSchema host = .ok self1) :
    self1.row_group_count = self.row_group_count := by
  unfold ArrowStreamWriter.WriteSchema at hok
  cases h1 : self.serializer.SerializeSchema host with
  | error e => simp [h1] at hok
  | ok serializer1 =>
    simp only [h1] at hok
    cases h2 : deref self.writer with
    | error e => simp [h2] at hok
    | ok writer =>
      simp only [h2] at hok
      cases h3 : serializer1.Flush writer with
      | error e => simp [h3] at hok
      | ok p =>
        simp only [h3, Except.ok.injEq] at hok
        rw [← hok]

theorem Finalize_row_group_count (self self1 : ArrowStreamWriter)
    (hok : self.Finalize = .ok self1) :
    self1.row_group_count = self.row_group_count := by
  unfold ArrowStreamWriter.Finalize at hok
  cases h2 : deref self.writer with
  | error e => simp [h2] at hok
  | ok writer =>
    simp only [h2] at hok
    cases h3 : writer.WriteData end_of_stream end_of_stream.length with
    | error e => simp [h3] at hok
    | ok writer1 =>
      simp only [h3] at hok
      cases h4 : writer1.Close with
      | error e => simp [h4] at hok
      | ok writer2 =>
        simp only [h4, Except.ok.injEq] at hok
        rw [← hok]

/-- One call that does not throw: a `Flush` (either overload) steps the counter, every
other call leaves it alone. -/
theorem call_row_group_count (host : WriterHost) (self self1 : ArrowStreamWriter)
    (c : WriterCall) (hok : self.call host c = .ok self1) :
    self1.row_group_count
      = if c.isFlush then idx_t_succ self.row_group_count else self.row_group_count := by
  cases c with
  | WriteSchema =>
    simpa [WriterCall.isFlush] using WriteSchema_row_group_count host self self1 hok
  | NewSerializer =>
    simp only [ArrowStreamWriter.call] at hok
    cases h : self.NewSerializer with
    | error e => simp [h] at hok
    | ok s =>
      simp only [h, Except.ok.injEq] at hok
      simp [WriterCall.isFlush, hok]
  | Flush buffer =>
    simp only [ArrowStreamWriter.call] at hok
    cases h : (self.Flush host buffer).thrown with
    | some e => simp [h] at hok
    | none =>
      simp only [h, Except.ok.injEq] at hok
      simp only [WriterCall.isFlush, if_true]
      rw [← hok]
      exact Flush_row_group_count host self buffer h
  | FlushSerializer serializer =>
    simp only [ArrowStreamWriter.call] at hok
    cases h : self.FlushSerializer serializer with
    | error e => simp [h] at hok
    | ok p =>
      obtain ⟨w, s1⟩ := p
      simp only [h, Except.ok.injEq] at hok
      simp only [WriterCall.isFlush, if_true]
      rw [← hok]
      exact FlushSerializer_row_group_count self w serializer s1 h
  | Finalize =>
    simpa [WriterCall.isFlush] using Finalize_row_group_count self self1 hok

theorem flushCount_cons (c : WriterCall) (cs : List WriterCall) :
    flushCount (c :: cs) = (if c.isFlush then 1 else 0) + flushCount cs := by
  unfold flushCount
  by_cases h : c.isFlush = true
  · simp [List.filter_cons, h]; omega
  · simp [List.filter_cons, h]

theorem calls_row_group_count (host : WriterHost) (cs : List WriterCall)
    (self self1 : ArrowStreamWriter) (hok : self.calls host cs = .ok self1)
    (hrange : self.row_group_count + flushCount cs < 2 ^ 64) :
    self1.row_group_count = self.row_group_count + flushCount cs := by
  induction cs generalizing self with
  | nil =>
    simp only [ArrowStreamWriter.calls, Except.ok.injEq] at hok
    simp [flushCount, hok]
  | cons c cs ih =>
    simp only [ArrowStreamWriter.calls] at hok
    cases h : self.call host c with
    | error e => simp [h] at hok
    | ok w =>
      simp only [h] at hok
      have hc := call_row_group_count host self w c h
      rw [flushCount_cons] at hrange ⊢
      by_cases hf : c.isFlush = true
      · simp only [hf, if_true] at hc hrange ⊢
        have hw : w.row_group_count = self.row_group_count + 1 := by
          rw [hc, idx_t_succ]
          exact Nat.mod_eq_of_lt (by omega)
        have := ih w hok (by omega)
        omega
      · simp only [hf] at hc hrange ⊢
        simp only [Bool.false_eq_true, if_false] at hc hrange ⊢
        have := ih w hok (by omega)
        omega

/-- C3: on a writer whose counter is below the `idx_t` maximum, every successful `Flush`
of a batch (any batch, a zero-row one included) and every successful `Flush` of a
serializer raises `NumberOfRowGroups()` by exactly one; a successful `WriteSchema`,
`NewSerializer` or `Finalize` leaves it as it was; and when the writer is fresh from the
constructor, after any sequence of successful calls `NumberOfRowGroups()` is the number
of `Flush` calls in the sequence. -/
theorem NumberOfRowGroups_counts_flushes (host : WriterHost) (self : ArrowStreamWriter)
    (hrange : self.row_group_count + 1 < 2 ^ 64) :
    (∀ buffer, (self.Flush host buffer).thrown = none →
        (self.Flush host buffer).self.NumberOfRowGroups = self.NumberOfRowGroups + 1)
    ∧ (∀ serializer self1 serializer1, self.FlushSerializer serializer = .ok (self1, serializer1) →
        self1.NumberOfRowGroups = self.NumberOfRowGroups + 1)
    ∧ (∀ self1, self.WriteSchema host = .ok self1 →
        self1.NumberOfRowGroups = self.NumberOfRowGroups)
    ∧ (∀ self1, self.call host WriterCall.NewSerializer = .ok self1 → self1 = self)
    ∧ (∀ self1, self.Finalize = .ok self1 → self1.NumberOfRowGroups = self.NumberOfRowGroups)
    ∧ (∀ context fs file_path logical_types column_names metadata key_uninit value_uninit cs self1,
        ArrowStreamWriter.new host context fs file_path logical_types column_names metadata
          key_uninit value_uninit = .ok self →
        self.calls host cs = .ok self1 → flushCount cs < 2 ^ 64 →
        self1.NumberOfRowGroups = flushCount cs) := by
  have hsucc : idx_t_succ self.row_group_count = self.row_group_count + 1 := by
    rw [idx_t_succ]; exact Nat.mod_eq_of_lt hrange
  refine ⟨?_, ?_, ?_, ?_, ?_, ?_⟩
  · intro buffer hok
    simp only [ArrowStreamWriter.NumberOfRowGroups]
    rw [Flush_row_group_count host self buffer hok, hsucc]
  · intro serializer self1 serializer1 hok
    simp only [ArrowStreamWriter.NumberOfRowGroups]
    rw [FlushSerializer_row_group_count self self1 serializer serializer1 hok, hsucc]
  · intro self1 hok
    exact WriteSchema_row_group_count host self self1 hok
  · intro self1 hok
    simp only [ArrowStreamWriter.call] at hok
    cases h : self.NewSerializer with
    | error e => simp [h] at hok
    | ok s =>
      simp only [h, Except.ok.injEq] at hok
      exact hok.symm
  · intro self1 hok
    exact Finalize_row_group_count self self1 hok
  · intro context fs file_path logical_types column_names metadata key_uninit value_uninit cs
      self1 hnew hok hcount
    obtain ⟨_, _, _, _, _, _, hzero⟩ := new_ok host context fs file_path logical_types
      column_names metadata key_uninit value_uninit self hnew
    have := calls_row_group_count host cs self self1 hok (by omega)
    simp only [ArrowStreamWriter.NumberOfRowGroups]
    omega

/-- C3 at a concrete input: flushing a zero-row batch on a fresh writer succeeds and
gives one row group; a schema, a two-row batch, a zero-row batch and the end of the
stream give two. -/
theorem NumberOfRowGroups_counts_flushes_witness :
    (fixtureWriter.Flush fixtureWriterHost { rows := [] }).thrown = none
    ∧ (fixtureWriter.Flush fixtureWriterHost { rows := [] }).self.NumberOfRowGroups = 1
    ∧ (∀ self1, fixtureWriter.calls fixtureWriterHost
          (streamCalls [{ rows := [[1], [2]] }, { rows := [] }]) = .ok self1 →
        self1.NumberOfRowGroups = 2) := by
  have h := NumberOfRowGroups_counts_flushes fixtureWriterHost fixtureWriter (by decide)
  refine ⟨rfl, h.1 { rows := [] } rfl, ?_⟩
  intro self1 hok
  exact h.2.2.2.2.2 fixtureContext fixtureContext.fs "out.arrows" ["INTEGER"] ["a"] [] "" ""
    (streamCalls [{ rows := [[1], [2]] }, { rows := [] }]) self1 rfl hok (by decide)

/-! ### Bytes written by a whole stream -/

/-- Flushing the batches one after the other on a writer that is bound to `schema`,
whose destination is open and has room for all the messages: every flush succeeds and
the destination grows by the messages in order.  `rest` is what the caller does next. -/
theorem calls_flushes_ok (host : WriterHost) (schema : ArrowSchema)
    (logical_types : List LogicalType) (batches : List ColumnDataCollection)
    (messages : List (List Nat))
    (henc : List.Forall₂ (fun b m => host.encodeBatch schema logical_types b = .ok m)
      batches messages) :
    ∀ (self : ArrowStreamWriter) (writer : BufferedFileWriter),
      self.serializer.schema = some schema → self.serializer.logical_types = logical_types →
      self.writer = some writer → writer.closed = false →
      writer.data.length + (messages.map List.length).sum ≤ writer.capacity →
      ∃ self1 : ArrowStreamWriter, (∀ rest, self.calls host (batches.map WriterCall.Flush ++ rest)
                  = self1.calls host rest)
        ∧ self1.serializer.schema = some schema
        ∧ self1.serializer.logical_types = logical_types
        ∧ self1.writer = some { writer with data := writer.data ++ messages.flatten } := by
  induction henc with
  | nil =>
    intro self writer hs hl hw _ _
    exact ⟨self, fun rest => rfl, hs, hl, by simp [hw]⟩
  | @cons b m bs ms hbm _ ih =>
    intro self writer hs hl hw hopen hroom
    simp only [List.map_cons, List.sum_cons] at hroom
    have hflush := Flush_ok host self b schema writer m hs (by rw [hl]; exact hbm) hw hopen
      (by omega)
    obtain ⟨self2, hcalls, hs2, hl2, hw2⟩ :=
      ih (self.Flush host b).self { writer with data := writer.data ++ m }
        (by rw [hflush]; exact hs) (by rw [hflush]; exact hl) (by rw [hflush]) hopen
        (by simp only [List.length_append]; omega)
    refine ⟨self2, ?_, hs2, hl2, ?_⟩
    · intro rest
      have hthrown : (self.Flush host b).thrown = none := by rw [hflush]
      simp only [List.map_cons, List.cons_append, ArrowStreamWriter.calls,
        ArrowStreamWriter.call, hthrown]
      exact hcalls rest
    · rw [hw2]
      simp [List.append_assoc]

/-- C4: take a writer fresh from the constructor, let `schema_message` be the bytes of
its schema message and `batch_messages` the bytes of the record-batch messages of
`B1..Bn`, and let the destination have room for them and the end-of-stream marker
(their total below `2^64`).  Then `WriteSchema, Flush(B1), .., Flush(Bn), Finalize` runs
to the end, the closed destination holds exactly the schema message, the record-batch
messages in order and the 8 marker bytes, and `FileSize()` afterwards is that number of
bytes: the messages' lengths summed, plus 8. -/
theorem FileSize_after_Finalize_is_bytes_written (host : WriterHost) (context : ClientContext)
    (fs : FileSystem) (file_path : String) (logical_types : List LogicalType)
    (column_names : List String) (metadata : List (String × String))
    (key_uninit value_uninit : ArrowStringView) (w0 : ArrowStreamWriter) (schema : ArrowSchema)
    (batches : List ColumnDataCollection) (schema_message : List Nat)
    (batch_messages : List (List Nat))
    (hnew : ArrowStreamWriter.new host context fs file_path logical_types column_names metadata
      key_uninit value_uninit = .ok w0)
    (hschema : w0.schema = some schema)
    (hsm : host.encodeSchema schema = .ok schema_message)
    (hbm : List.Forall₂ (fun b m => host.encodeBatch schema logical_types b = .ok m)
      batches batch_messages)
    (hroom : schema_message.length + (batch_messages.map List.length).sum + 8 ≤ fs.capacity)
    (h64 : schema_message.length + (batch_messages.map List.length).sum + 8 < 2 ^ 64) :
    ∃ w1 writer1, w0.calls host (streamCalls batches) = .ok w1
      ∧ w1.writer = some writer1
      ∧ writer1.data = schema_message ++ batch_messages.flatten ++ end_of_stream
      ∧ writer1.closed = true
      ∧ w1.FileSize = .ok writer1.data.length
      ∧ w1.FileSize
          = .ok (schema_message.length + (batch_messages.map List.length).sum + 8) := by
  obtain ⟨schema0, hs0, hss, hsl, _, hw, _⟩ := new_ok host context fs file_path logical_types
    column_names metadata key_uninit value_uninit w0 hnew
  have hsame : schema0 = schema := by
    rw [hs0] at hschema; exact Option.some.inj hschema
  subst hsame
  have hws := WriteSchema_ok host w0 schema0
    { path := file_path, data := [], closed := false, capacity := fs.capacity } schema_message
    hss hsm hw rfl (by simp only [List.length_nil]; omega)
  obtain ⟨w2, hcalls, _, _, hw2⟩ := calls_flushes_ok host schema0 logical_types batches
    batch_messages hbm
    { w0 with
      serializer := { w0.serializer with buffered := [] },
      writer := some { path := file_path, data := [] ++ schema_message, closed := false,
                       capacity := fs.capacity } }
    { path := file_path, data := [] ++ schema_message, closed := false, capacity := fs.capacity }
    hss hsl rfl rfl (by simp only [List.nil_append]; omega)
  have hw2a : w2.writer = some { path := file_path,
                                 data := schema_message ++ batch_messages.flatten,
                                 closed := false, capacity := fs.capacity } := by
    rw [hw2]; simp
  have hlen : (schema_message ++ batch_messages.flatten ++ end_of_stream).length
      = schema_message.length + (batch_messages.map List.length).sum + 8 := by
    simp only [List.length_append, List.length_flatten, end_of_stream, List.length_cons,
      List.length_nil]
  have hfin := Finalize_ok w2 _ hw2a rfl
    (by simp only [List.length_append, List.length_flatten]; omega)
  have hfin1 : w2.calls host [WriterCall.Finalize]
      = .ok { w2 with writer := some { path := file_path,
                                       data := schema_message ++ batch_messages.flatten
                                                 ++ end_of_stream,
                                       closed := true, capacity := fs.capacity } } := by
    simp only [ArrowStreamWriter.calls, ArrowStreamWriter.call, hfin]
  have hrun : w0.calls host (streamCalls batches)
      = .ok { w2 with writer := some { path := file_path,
                                       data := schema_message ++ batch_messages.flatten
                                                 ++ end_of_stream,
                                       closed := true, capacity := fs.capacity } } :=
    ((calls_cons_ok host w0 _ WriterCall.WriteSchema _ hws).trans
      (hcalls [WriterCall.Finalize])).trans hfin1
  refine ⟨_, _, hrun, rfl, rfl, rfl, ?_, ?_⟩
  · simp only [ArrowStreamWriter.FileSize, deref, BufferedFileWriter.GetTotalWritten]
    rw [Nat.mod_eq_of_lt (by rw [hlen]; exact h64)]
  · simp only [ArrowStreamWriter.FileSize, deref, BufferedFileWriter.GetTotalWritten]
    rw [Nat.mod_eq_of_lt (by rw [hlen]; exact h64), hlen]

/-- C4 at a concrete input: one INTEGER column, a two-row batch and a zero-row batch; the
three messages are 16 bytes each and `FileSize()` after `Finalize` is 56. -/
theorem FileSize_after_Finalize_is_bytes_written_witness :
    ∃ w1 writer1, fixtureWriter.calls fixtureWriterHost
          (streamCalls [{ rows := [[1], [2]] }, { rows := [] }]) = .ok w1
      ∧ w1.writer = some writer1
      ∧ writer1.data.length = 56
      ∧ writer1.closed = true
      ∧ w1.FileSize = .ok 56 := by
  obtain ⟨w1, writer1, h1, h2, h3, h4, _, h6⟩ :=
    FileSize_after_Finalize_is_bytes_written fixtureWriterHost fixtureContext fixtureContext.fs
      "out.arrows" ["INTEGER"] ["a"] [] "" "" fixtureWriter
      { children := [("a", "INTEGER")], metadata := none }
      [{ rows := [[1], [2]] }, { rows := [] }]
      [0xFF, 0xFF, 0xFF, 0xFF, 8, 0, 0, 0, 1, 1, 0, 0, 0, 0, 0, 0]
      [[0xFF, 0xFF, 0xFF, 0xFF, 8, 0, 0, 0, 3, 2, 0, 0, 0, 0, 0, 0],
       [0xFF, 0xFF, 0xFF, 0xFF, 8, 0, 0, 0, 3, 0, 0, 0, 0, 0, 0, 0]]
      rfl rfl rfl
      (List.Forall₂.cons rfl (List.Forall₂.cons rfl List.Forall₂.nil))
      (by decide) (by decide)
  refine ⟨w1, writer1, h1, h2, ?_, h4, h6⟩
  rw [h3]; rfl

/-- C9, refuted at a concrete input: on a fresh writer two calls of `WriteSchema` in a
row both succeed, and the destination then holds the schema message twice. -/
theorem WriteSchema_second_call_succeeds :
    ∃ w1 w2, fixtureWriter.WriteSchema fixtureWriterHost = .ok w1
      ∧ w1.WriteSchema fixtureWriterHost = .ok w2
      ∧ w1.writer = some
          { path := "out.arrows",
            data := [0xFF, 0xFF, 0xFF, 0xFF, 8, 0, 0, 0, 1, 1, 0, 0, 0, 0, 0, 0],
            closed := false, capacity := 1024 }
      ∧ w2.writer = some
          { path := "out.arrows",
            data := [0xFF, 0xFF, 0xFF, 0xFF, 8, 0, 0, 0, 1, 1, 0, 0, 0, 0, 0, 0,
                     0xFF, 0xFF, 0xFF, 0xFF, 8, 0, 0, 0, 1, 1, 0, 0, 0, 0, 0, 0],
            closed := false, capacity := 1024 } :=
  ⟨_, _, rfl, rfl, rfl, rfl⟩

/-- C9 as amended: `WriteSchema` has no once-only guard.  After a call of `WriteSchema`
that succeeded, a further call succeeds whenever the destination has room for the schema
message again, and it appends the same schema message once more: the destination then
ends with two copies of it. -/
theorem WriteSchema_again_appends_again (host : WriterHost) (self w1 : ArrowStreamWriter)
    (schema : ArrowSchema) (message : List Nat) (writer1 : BufferedFileWriter)
    (hschema : self.serializer.schema = some schema)
    (henc : host.encodeSchema schema = .ok message)
    (hfirst : self.WriteSchema host = .ok w1)
    (hw1 : w1.writer = some writer1)
    (hroom : writer1.data.length + message.length ≤ writer1.capacity) :
    ∃ w2 writer0, w1.WriteSchema host = .ok w2
      ∧ self.writer = some writer0
      ∧ writer1.data = writer0.data ++ message
      ∧ w2.writer = some { writer1 with data := writer0.data ++ message ++ message }
      ∧ w2.row_group_count = self.row_group_count := by
  obtain ⟨schema0, message0, writer0, hs0, he0, hw0, hopen, _, hw1eq⟩ :=
    WriteSchema_inv host self w1 hfirst
  have hsch : schema0 = schema := by
    rw [hs0] at hschema; exact Option.some.inj hschema
  subst hsch
  have hmsg : message0 = message := by
    rw [he0] at henc; exact Except.ok.inj henc
  subst hmsg
  have hwr1 : writer1 = { writer0 with data := writer0.data ++ message0 } := by
    rw [hw1eq] at hw1; exact (Option.some.inj hw1).symm
  have hs1 : w1.serializer.schema = some schema0 := by rw [hw1eq]; exact hs0
  have hopen1 : writer1.closed = false := by rw [hwr1]; exact hopen
  have hsecond := WriteSchema_ok host w1 schema0 writer1 message0 hs1 he0 hw1 hopen1 hroom
  refine ⟨_, writer0, hsecond, hw0, ?_, ?_, ?_⟩
  · rw [hwr1]
  · rw [hwr1]
  · rw [hw1eq]

/-- C9 as amended, at a concrete input: the second `WriteSchema` on the fixture writer. -/
theorem WriteSchema_again_appends_again_witness :
    ∃ w2, ({ fixtureWriter with
              writer := some { path := "out.arrows",
                               data := [0xFF, 0xFF, 0xFF, 0xFF, 8, 0, 0, 0, 1, 1, 0, 0, 0, 0, 0, 0],
                               closed := false, capacity := 1024 } } :
            ArrowStreamWriter).WriteSchema fixtureWriterHost = .ok w2
      ∧ w2.writer = some
          { path := "out.arrows",
            data := [0xFF, 0xFF, 0xFF, 0xFF, 8, 0, 0, 0, 1, 1, 0, 0, 0, 0, 0, 0,
                     0xFF, 0xFF, 0xFF, 0xFF, 8, 0, 0, 0, 1, 1, 0, 0, 0, 0, 0, 0],
            closed := false, capacity := 1024 } := by
  obtain ⟨w2, writer0, h1, h2, _, h4, _⟩ :=
    WriteSchema_again_appends_again fixtureWriterHost fixtureWriter _
      { children := [("a", "INTEGER")], metadata := none }
      [0xFF, 0xFF, 0xFF, 0xFF, 8, 0, 0, 0, 1, 1, 0, 0, 0, 0, 0, 0]
      { path := "out.arrows",
        data := [0xFF, 0xFF, 0xFF, 0xFF, 8, 0, 0, 0, 1, 1, 0, 0, 0, 0, 0, 0],
        closed := false, capacity := 1024 }
      rfl rfl rfl rfl (by decide)
  have hw0 : writer0 = { path := "out.arrows", data := [], closed := false, capacity := 1024 } :=
    (Option.some.inj h2).symm
  subst hw0
  exact ⟨w2, h1, h4⟩

/-! ## Theorems: `DuckDBDecompressZstd` -/

/-- For an expected size that is a non-negative `int64_t`, the comparison with the
`size_t` count converted to `int64_t` is the comparison of the two numbers. -/
theorem int64_t_eq_iff (dst_size : Int) (code : Nat) (h0 : 0 ≤ dst_size)
    (h63 : dst_size < 2 ^ 63) (hcode : code < 2 ^ 64) :
    dst_size = int64_t code ↔ (code : Int) = dst_size := by
  unfold int64_t
  rw [Nat.mod_eq_of_lt hcode]
  by_cases h : code < 2 ^ 63
  · simp only [h, if_true]
    exact eq_comm
  · simp only [h, if_false]
    constructor
    · intro heq; omega
    · intro heq; omega

theorem DuckDBDecompressZstd_code_lt (zstd : ZstdHost) (src : ArrowBufferView) (dst_size : Int) :
    DuckDBDecompressZstd.code zstd src dst_size < 2 ^ 64 := by
  unfold DuckDBDecompressZstd.code
  exact Nat.mod_lt _ (by decide)

theorem DuckDBDecompressZstd_codec_error (zstd : ZstdHost) (src : ArrowBufferView)
    (dst_size : Int) (error : ArrowError)
    (herr : zstd.ZSTD_isError (DuckDBDecompressZstd.code zstd src dst_size) = true) :
    (DuckDBDecompressZstd zstd src dst_size error).code = EIO
      ∧ (DuckDBDecompressZstd zstd src dst_size error).error.args
          = [.i64 src.size_bytes, .i64 dst_size,
             .str (zstd.ZSTD_getErrorName (DuckDBDecompressZstd.code zstd src dst_size))] := by
  simp [DuckDBDecompressZstd, herr, ArrowErrorSet]

theorem DuckDBDecompressZstd_size_mismatch (zstd : ZstdHost) (src : ArrowBufferView)
    (dst_size : Int) (error : ArrowError)
    (hok : zstd.ZSTD_isError (DuckDBDecompressZstd.code zstd src dst_size) = false)
    (hne : dst_size ≠ int64_t (DuckDBDecompressZstd.code zstd src dst_size)) :
    (DuckDBDecompressZstd zstd src dst_size error).code = EIO
      ∧ (DuckDBDecompressZstd zstd src dst_size error).error
          = { fmt := "Expected decompressed size of %" ++ PRId64 ++ " bytes but got %" ++ PRId64
                       ++ " bytes",
              args := [.i64 dst_size,
                       .i64 (int64_t (DuckDBDecompressZstd.code zstd src dst_size))] } := by
  simp [DuckDBDecompressZstd, hok, hne, ArrowErrorSet]

theorem DuckDBDecompressZstd_success (zstd : ZstdHost) (src : ArrowBufferView)
    (dst_size : Int) (error : ArrowError)
    (hok : zstd.ZSTD_isError (DuckDBDecompressZstd.code zstd src dst_size) = false)
    (heq : dst_size = int64_t (DuckDBDecompressZstd.code zstd src dst_size)) :
    (DuckDBDecompressZstd zstd src dst_size error).code = NANOARROW_OK
      ∧ (DuckDBDecompressZstd zstd src dst_size error).error = error := by
  unfold DuckDBDecompressZstd
  simp only [hok, Bool.false_eq_true, if_false]
  rw [if_neg (by simpa using heq)]
  exact ⟨rfl, rfl⟩

theorem EIO_ne_OK : EIO ≠ NANOARROW_OK := by decide

/-- C5: for every compressed input and every expected size `dst_size` (a non-negative
`int64_t`), `DuckDBDecompressZstd` returns `NANOARROW_OK` exactly when the codec reports
no error and the byte count it produced equals `dst_size`; and when the codec succeeds
with a different byte count the result is `EIO` with the size-mismatch message (the
expected size and the produced count, as `int64_t`, are its arguments), never success. -/
theorem DuckDBDecompressZstd_ok_iff (zstd : ZstdHost) (src : ArrowBufferView) (dst_size : Int)
    (error : ArrowError) (h0 : 0 ≤ dst_size) (h63 : dst_size < 2 ^ 63) :
    ((DuckDBDecompressZstd zstd src dst_size error).code = NANOARROW_OK
        ↔ (zstd.ZSTD_isError (DuckDBDecompressZstd.code zstd src dst_size) = false
            ∧ ((DuckDBDecompressZstd.code zstd src dst_size : Nat) : Int) = dst_size))
    ∧ (zstd.ZSTD_isError (DuckDBDecompressZstd.code zstd src dst_size) = false →
        ((DuckDBDecompressZstd.code zstd src dst_size : Nat) : Int) ≠ dst_size →
        (DuckDBDecompressZstd zstd src dst_size error).code = EIO
          ∧ (DuckDBDecompressZstd zstd src dst_size error).code ≠ NANOARROW_OK
          ∧ (DuckDBDecompressZstd zstd src dst_size error).error
              = { fmt := "Expected decompressed size of %" ++ PRId64 ++ " bytes but got %"
                           ++ PRId64 ++ " bytes",
                  args := [.i64 dst_size,
                           .i64 (int64_t (DuckDBDecompressZstd.code zstd src dst_size))] }) := by
  have hlt := DuckDBDecompressZstd_code_lt zstd src dst_size
  have hiff := int64_t_eq_iff dst_size _ h0 h63 hlt
  constructor
  · constructor
    · intro hcode
      cases herr : zstd.ZSTD_isError (DuckDBDecompressZstd.code zstd src dst_size) with
      | true =>
        have := (DuckDBDecompressZstd_codec_error zstd src dst_size error herr).1
        rw [this] at hcode
        exact absurd hcode EIO_ne_OK
      | false =>
        refine ⟨rfl, ?_⟩
        by_contra hne
        have hne1 : dst_size ≠ int64_t (DuckDBDecompressZstd.code zstd src dst_size) :=
          fun h => hne (hiff.mp h)
        have := (DuckDBDecompressZstd_size_mismatch zstd src dst_size error herr hne1).1
        rw [this] at hcode
        exact absurd hcode EIO_ne_OK
    · rintro ⟨hok, heq⟩
      exact (DuckDBDecompressZstd_success zstd src dst_size error hok (hiff.mpr heq)).1
  · intro hok hne
    have hne1 : dst_size ≠ int64_t (DuckDBDecompressZstd.code zstd src dst_size) :=
      fun h => hne (hiff.mp h)
    have h := DuckDBDecompressZstd_size_mismatch zstd src dst_size error hok hne1
    exact ⟨h.1, by rw [h.1]; exact EIO_ne_OK, h.2⟩

/-- C5 at a concrete input: four source bytes holding three stored bytes.  Expecting 3
bytes gives `NANOARROW_OK`; expecting 5 gives `EIO` with the size-mismatch message for
5 expected and 3 produced. -/
theorem DuckDBDecompressZstd_ok_iff_witness :
    (DuckDBDecompressZstd fixtureZstd { data := [0, 1, 2, 3], size_bytes := 4 } 3
        { fmt := "", args := [] }).code = NANOARROW_OK
    ∧ (DuckDBDecompressZstd fixtureZstd { data := [0, 1, 2, 3], size_bytes := 4 } 5
        { fmt := "", args := [] }).code = EIO
    ∧ (DuckDBDecompressZstd fixtureZstd { data := [0, 1, 2, 3], size_bytes := 4 } 5
        { fmt := "", args := [] }).error
        = { fmt := "Expected decompressed size of %ld bytes but got %ld bytes",
            args := [.i64 5, .i64 3] } := by
  have h3 := DuckDBDecompressZstd_ok_iff fixtureZstd { data := [0, 1, 2, 3], size_bytes := 4 } 3
    { fmt := "", args := [] } (by decide) (by decide)
  have h5 := DuckDBDecompressZstd_ok_iff fixtureZstd { data := [0, 1, 2, 3], size_bytes := 4 } 5
    { fmt := "", args := [] } (by decide) (by decide)
  have h5m := h5.2 rfl (by decide)
  exact ⟨h3.1.mpr ⟨rfl, rfl⟩, h5m.1, h5m.2.2⟩

/-- A successful `OpenFile` found the file and logged the path. -/
theorem OpenFile_ok_inv (fs fs1 : FileSystem) (path : String) (handle : FileHandle)
    (h : fs.OpenFile path = .ok (handle, fs1)) :
    fs1 = { fs with opened := fs.opened ++ [path] } ∧ handle.path = path
      ∧ handle.position = 0 := by
  unfold FileSystem.OpenFile at h
  cases hf : fs.files.find? (fun f => f.1 == path) with
  | none => simp [hf] at h
  | some f =>
    simp only [hf, Except.ok.injEq, Prod.mk.injEq] at h
    refine ⟨h.2.symm, ?_, ?_⟩ <;> rw [← h.1]

/-- A failed `OpenFile` throws an `IOException`. -/
theorem OpenFile_error_inv (fs : FileSystem) (path : String) (e : Exception)
    (h : fs.OpenFile path = .error e) : ∃ msg, e = .IOException msg := by
  unfold FileSystem.OpenFile at h
  cases hf : fs.files.find? (fun f => f.1 == path) with
  | none =>
    simp only [hf, Except.error.injEq] at h
    exact ⟨_, h.symm⟩
  | some f => simp [hf] at h

/-- On a factory fresh from its constructor `InitStream` is `OpenFile` followed by the
wrapping of the handle. -/
theorem InitStream_new (context : ClientContext) (src : String) :
    (read_arrow_stream.ArrowIpcArrowArrayStreamFactory.new context src).InitStream
      = match context.fs.OpenFile src with
        | .error e => .error e
        | .ok (handle, fs1) =>
          .ok { fs := fs1, src_string := src,
                stream := some (ArrowIpcArrayStreamReaderInit (InitDuckDBInputStream handle)),
                error := { fmt := "", args := [] } } := by
  simp only [read_arrow_stream.ArrowIpcArrowArrayStreamFactory.InitStream,
    read_arrow_stream.ArrowIpcArrowArrayStreamFactory.new]

/-- A throwing `GetSchema` throws an `InternalException` or an `IOException`, nothing else. -/
theorem GetSchema_thrown_inv (host : ReaderHost)
    (self : read_arrow_stream.ArrowIpcArrowArrayStreamFactory) (schema : ArrowSchemaWrapper)
    (e : Exception) (h : (self.GetSchema host schema).thrown = some e) :
    (∃ msg, e = .InternalException msg) ∨ (∃ msg, e = .IOException msg) := by
  unfold read_arrow_stream.ArrowIpcArrowArrayStreamFactory.GetSchema at h
  cases hs : self.stream with
  | none =>
    simp only [hs, Option.some.injEq] at h
    exact Or.inl ⟨_, h.symm⟩
  | some stream =>
    simp only [hs, THROW_NOT_OK] at h
    split at h
    · simp only [Option.some.injEq] at h
      exact Or.inr ⟨_, h.symm⟩
    · simp at h

/-- A call of `GetSchema` leaves the factory's file system as it was and, when it does not throw,
the factory's stream initialised. -/
theorem GetSchema_self (host : ReaderHost)
    (self : read_arrow_stream.ArrowIpcArrowArrayStreamFactory) (schema : ArrowSchemaWrapper) :
    (self.GetSchema host schema).self.fs = self.fs
      ∧ ((self.GetSchema host schema).thrown = none →
          ∃ stream, (self.GetSchema host schema).self.stream = some stream) := by
  unfold read_arrow_stream.ArrowIpcArrowArrayStreamFactory.GetSchema
  cases hs : self.stream with
  | none => simp
  | some stream => simp

/-- The outcome of `read_arrow_stream`'s `BindInternal` once `InitStream`, `GetSchema` and
`PopulateArrowTableType` have gone through. -/
theorem read_arrow_stream_BindInternal_populated (host : ReaderHost) (context : ClientContext)
    (src : String) (return_types : List LogicalType) (names : List String)
    (factory1 : read_arrow_stream.ArrowIpcArrowArrayStreamFactory)
    (arrow_table : ArrowTableType) (names1 : List String) (return_types1 : List LogicalType)
    (hinit : (read_arrow_stream.ArrowIpcArrowArrayStreamFactory.new context src).InitStream
      = .ok factory1)
    (hschema : (factory1.GetSchema host { arrow_schema := none }).thrown = none)
    (hpop : host.PopulateArrowTableType (factory1.GetSchema host { arrow_schema := none }).schema
      names return_types = .ok (arrow_table, names1, return_types1)) :
    read_arrow_stream.BindInternal host context src return_types names =
      { thrown := if return_types1.isEmpty then
                    some (.InvalidInputException empty_schema_message) else none,
        res := { factory := (factory1.GetSchema host { arrow_schema := none }).self,
                 schema_root := (factory1.GetSchema host { arrow_schema := none }).schema,
                 arrow_table := arrow_table, all_types := return_types1, lines_read := 0 },
        return_types := return_types1,
        names := host.DeduplicateColumns names1 } := by
  simp only [read_arrow_stream.BindInternal, read_arrow_stream.Data.new, hinit, hschema, hpop]
  split <;> rfl

/-- The outcome of `read_arrow`'s `BindInternal` once `InitReader`, `GetFileSchema` and
`PopulateArrowTableType` have gone through. -/
theorem read_arrow_BindInternal_populated {F : Type} (host : read_arrow.ReadArrowHost F)
    (context : ClientContext) (src : String) (return_types : List LogicalType)
    (names : List String) (factory1 factory2 : F) (schema_root : ArrowSchemaWrapper)
    (arrow_table : ArrowTableType) (names1 : List String) (return_types1 : List LogicalType)
    (hinit : host.InitReader (host.newFactory context src) = .ok factory1)
    (hschema : host.GetFileSchema factory1 { arrow_schema := none } = .ok (factory2, schema_root))
    (hpop : host.PopulateArrowTableType schema_root names return_types
      = .ok (arrow_table, names1, return_types1)) :
    read_arrow.BindInternal host context src return_types names =
      { thrown := if return_types1.isEmpty then
                    some (.InvalidInputException empty_schema_message) else none,
        res := { factory := factory2, schema_root := schema_root,
                 arrow_table := arrow_table, all_types := return_types1, lines_read := 0 },
        return_types := return_types1,
        names := host.DeduplicateColumns names1 } := by
  simp only [read_arrow.BindInternal, read_arrow.Data.new, hinit, hschema, hpop]
  split <;> rfl

/-- C7: in `read_arrow_stream` and in `read_arrow` alike, once the earlier steps of
`BindInternal` have succeeded and left `return_types` populated: when the populated list
is empty `BindInternal` throws the `InvalidInputException`; when it is non-empty
`BindInternal` throws nothing and returns bind data whose `all_types` is the populated
`return_types`. -/
theorem BindInternal_throws_iff_no_columns (host : ReaderHost) {F : Type}
    (host2 : read_arrow.ReadArrowHost F) (context : ClientContext) (src : String)
    (return_types : List LogicalType) (names : List String) :
    (∀ factory1 arrow_table names1 return_types1,
      (read_arrow_stream.ArrowIpcArrowArrayStreamFactory.new context src).InitStream
        = .ok factory1 →
      (factory1.GetSchema host { arrow_schema := none }).thrown = none →
      host.PopulateArrowTableType (factory1.GetSchema host { arrow_schema := none }).schema
        names return_types = .ok (arrow_table, names1, return_types1) →
      (return_types1 = [] →
        (read_arrow_stream.BindInternal host context src return_types names).thrown
          = some (.InvalidInputException empty_schema_message))
      ∧ (return_types1 ≠ [] →
        (read_arrow_stream.BindInternal host context src return_types names).thrown = none
        ∧ (read_arrow_stream.BindInternal host context src return_types names).return_types
            = return_types1
        ∧ (read_arrow_stream.BindInternal host context src return_types names).res.all_types
            = return_types1))
    ∧ (∀ factory1 factory2 schema_root arrow_table names1 return_types1,
      host2.InitReader (host2.newFactory context src) = .ok factory1 →
      host2.GetFileSchema factory1 { arrow_schema := none } = .ok (factory2, schema_root) →
      host2.PopulateArrowTableType schema_root names return_types
        = .ok (arrow_table, names1, return_types1) →
      (return_types1 = [] →
        (read_arrow.BindInternal host2 context src return_types names).thrown
          = some (.InvalidInputException empty_schema_message))
      ∧ (return_types1 ≠ [] →
        (read_arrow.BindInternal host2 context src return_types names).thrown = none
        ∧ (read_arrow.BindInternal host2 context src return_types names).return_types
            = return_types1
        ∧ (read_arrow.BindInternal host2 context src return_types names).res.all_types
            = return_types1)) := by
  constructor
  · intro factory1 arrow_table names1 return_types1 hinit hschema hpop
    rw [read_arrow_stream_BindInternal_populated host context src return_types names factory1
      arrow_table names1 return_types1 hinit hschema hpop]
    constructor
    · intro hempty
      simp [hempty]
    · intro hne
      have : return_types1.isEmpty = false := by
        cases return_types1 with
        | nil => exact absurd rfl hne
        | cons _ _ => rfl
      simp [this]
  · intro factory1 factory2 schema_root arrow_table names1 return_types1 hinit hschema hpop
    rw [read_arrow_BindInternal_populated host2 context src return_types names factory1 factory2
      schema_root arrow_table names1 return_types1 hinit hschema hpop]
    constructor
    · intro hempty
      simp [hempty]
    · intro hne
      have : return_types1.isEmpty = false := by
        cases return_types1 with
        | nil => exact absurd rfl hne
        | cons _ _ => rfl
      simp [this]

/-- C7 at concrete inputs: a stream whose schema has no column is rejected by both
`BindInternal`s, a stream with one INTEGER column is bound with `all_types = [INTEGER]`. -/
theorem BindInternal_throws_iff_no_columns_witness :
    (read_arrow_stream.BindInternal fixtureReaderHost fixtureContext "empty.arrows" [] []).thrown
        = some (.InvalidInputException empty_schema_message)
    ∧ (read_arrow_stream.BindInternal fixtureReaderHost fixtureContext "one.arrows" [] []).thrown
        = none
    ∧ (read_arrow_stream.BindInternal fixtureReaderHost fixtureContext "one.arrows"
        [] []).res.all_types = ["INTEGER"]
    ∧ (read_arrow.BindInternal fixtureReadArrowHost fixtureContext "empty.arrows" [] []).thrown
        = some (.InvalidInputException empty_schema_message)
    ∧ (read_arrow.BindInternal fixtureReadArrowHost fixtureContext "one.arrows"
        [] []).res.all_types = ["INTEGER"] := by
  have hempty := BindInternal_throws_iff_no_columns fixtureReaderHost fixtureReadArrowHost
    fixtureContext "empty.arrows" [] []
  have hone := BindInternal_throws_iff_no_columns fixtureReaderHost fixtureReadArrowHost
    fixtureContext "one.arrows" [] []
  have s0 := hempty.1 _ { columns := [] } [] [] rfl rfl rfl
  have s1 := hone.1 _ { columns := ["INTEGER"] } ["c"] ["INTEGER"] rfl rfl rfl
  have a0 := hempty.2 _ _ _ { columns := [] } [] [] rfl rfl rfl
  have a1 := hone.2 _ _ _ { columns := ["INTEGER"] } ["c"] ["INTEGER"] rfl rfl rfl
  exact ⟨s0.1 rfl, (s1.2 (by decide)).1, (s1.2 (by decide)).2.2, a0.1 rfl,
    (a1.2 (by decide)).2.2⟩

/-- C8, refuted at a concrete input: binding `empty.arrows`, whose schema has no column,
ends in the empty-schema failure; no file had been opened before the call, and when the
failure is raised the source file has been opened and its 16 bytes have been read through
the input stream adapter. -/
theorem BindInternal_empty_schema_failure_after_io :
    (read_arrow_stream.BindInternal fixtureReaderHost fixtureContext "empty.arrows" [] []).thrown
        = some (.InvalidInputException empty_schema_message)
    ∧ fixtureContext.fs.opened = []
    ∧ (read_arrow_stream.BindInternal fixtureReaderHost fixtureContext "empty.arrows"
        [] []).res.factory.fs.opened = ["empty.arrows"]
    ∧ (read_arrow_stream.BindInternal fixtureReaderHost fixtureContext "empty.arrows"
        [] []).res.factory.stream
        = some { input_stream := { handle :=
            { path := "empty.arrows",
              content := [0xFF, 0xFF, 0xFF, 0xFF, 8, 0, 0, 0, 1, 0, 0, 0, 0, 0, 0, 0],
              position := 16, broken := false, closed := false } } } :=
  ⟨rfl, rfl, rfl, rfl⟩

/-- C8 as amended: the empty-schema failure comes after the source has been opened and
its schema fetched.  On every run of `read_arrow_stream`'s `BindInternal` that ends in
the empty-schema failure, `InitStream` has opened the source (`OpenFile` succeeded on
`src`, which is the one path added to the file system's log), `GetSchema` has returned
on the initialised stream without throwing, and `return_types` is empty; on every such
run of `read_arrow`'s `BindInternal`, `InitReader` and `GetFileSchema` have both
returned. -/
theorem BindInternal_empty_schema_failure_follows_open (host : ReaderHost) {F : Type}
    (host2 : read_arrow.ReadArrowHost F) (context : ClientContext) (src : String)
    (return_types : List LogicalType) (names : List String) :
    ((read_arrow_stream.BindInternal host context src return_types names).thrown
        = some (.InvalidInputException empty_schema_message) →
      ∃ handle fs1 factory1 stream,
        context.fs.OpenFile src = .ok (handle, fs1)
        ∧ (read_arrow_stream.ArrowIpcArrowArrayStreamFactory.new context src).InitStream
            = .ok factory1
        ∧ (factory1.GetSchema host { arrow_schema := none }).thrown = none
        ∧ (read_arrow_stream.BindInternal host context src return_types names).res.factory
            = (factory1.GetSchema host { arrow_schema := none }).self
        ∧ (read_arrow_stream.BindInternal host context src return_types names).res.factory.stream
            = some stream
        ∧ (read_arrow_stream.BindInternal host context src return_types names).res.factory.fs.opened
            = context.fs.opened ++ [src]
        ∧ (read_arrow_stream.BindInternal host context src return_types names).return_types = [])
    ∧ ((read_arrow.BindInternal host2 context src return_types names).thrown
        = some (.InvalidInputException empty_schema_message) →
      ∃ factory1 factory2 schema_root,
        host2.InitReader (host2.newFactory context src) = .ok factory1
        ∧ host2.GetFileSchema factory1 { arrow_schema := none } = .ok (factory2, schema_root)
        ∧ (read_arrow.BindInternal host2 context src return_types names).res.factory = factory2
        ∧ (read_arrow.BindInternal host2 context src return_types names).return_types = []) := by
  constructor
  · intro h
    cases hinit : (read_arrow_stream.ArrowIpcArrowArrayStreamFactory.new context src).InitStream with
    | error e =>
      have hnew := InitStream_new context src
      rw [hinit] at hnew
      cases hopen : context.fs.OpenFile src with
      | ok p => rw [hopen] at hnew; simp at hnew
      | error e1 =>
        rw [hopen] at hnew
        simp only [Except.error.injEq] at hnew
        obtain ⟨msg, hmsg⟩ := OpenFile_error_inv context.fs src e1 hopen
        simp [read_arrow_stream.BindInternal, read_arrow_stream.Data.new, hinit, hnew, hmsg] at h
    | ok factory1 =>
      cases hg : (factory1.GetSchema host { arrow_schema := none }).thrown with
      | some e =>
        have hthrown : (read_arrow_stream.BindInternal host context src return_types names).thrown
            = some e := by
          simp [read_arrow_stream.BindInternal, read_arrow_stream.Data.new, hinit, hg]
        rw [hthrown] at h
        rcases GetSchema_thrown_inv host factory1 _ e hg with ⟨msg, hmsg⟩ | ⟨msg, hmsg⟩ <;>
          simp [hmsg] at h
      | none =>
        cases hpop : host.PopulateArrowTableType
            (factory1.GetSchema host { arrow_schema := none }).schema names return_types with
        | error what =>
          simp [read_arrow_stream.BindInternal, read_arrow_stream.Data.new, hinit, hg, hpop] at h
        | ok p =>
          obtain ⟨arrow_table, names1, return_types1⟩ := p
          have hb := read_arrow_stream_BindInternal_populated host context src return_types names
            factory1 arrow_table names1 return_types1 hinit hg hpop
          rw [hb] at h ⊢
          have hempty : return_types1 = [] := by
            cases return_types1 with
            | nil => rfl
            | cons _ _ => simp at h
          have hnew := InitStream_new context src
          rw [hinit] at hnew
          cases hopen : context.fs.OpenFile src with
          | error e1 => rw [hopen] at hnew; simp at hnew
          | ok q =>
            obtain ⟨handle, fs1⟩ := q
            rw [hopen] at hnew
            simp only [Except.ok.injEq] at hnew
            obtain ⟨hfs1, _, _⟩ := OpenFile_ok_inv context.fs fs1 src handle hopen
            obtain ⟨hfs, hstream⟩ := GetSchema_self host factory1 { arrow_schema := none }
            obtain ⟨stream, hstream1⟩ := hstream hg
            refine ⟨handle, fs1, factory1, stream, rfl, rfl, hg, rfl, hstream1, ?_, hempty⟩
            show (factory1.GetSchema host { arrow_schema := none }).self.fs.opened
              = context.fs.opened ++ [src]
            rw [hfs, hnew, hfs1]
  · intro h
    cases hinit : host2.InitReader (host2.newFactory context src) with
    | error what =>
      simp [read_arrow.BindInternal, read_arrow.Data.new, hinit] at h
    | ok factory1 =>
      cases hg : host2.GetFileSchema factory1 { arrow_schema := none } with
      | error what =>
        simp [read_arrow.BindInternal, read_arrow.Data.new, hinit, hg] at h
      | ok q =>
        obtain ⟨factory2, schema_root⟩ := q
        cases hpop : host2.PopulateArrowTableType schema_root names return_types with
        | error what =>
          simp [read_arrow.BindInternal, read_arrow.Data.new, hinit, hg, hpop] at h
        | ok p =>
          obtain ⟨arrow_table, names1, return_types1⟩ := p
          have hb := read_arrow_BindInternal_populated host2 context src return_types names
            factory1 factory2 schema_root arrow_table names1 return_types1 hinit hg hpop
          rw [hb] at h ⊢
          have hempty : return_types1 = [] := by
            cases return_types1 with
            | nil => rfl
            | cons _ _ => simp at h
          exact ⟨factory1, factory2, schema_root, rfl, hg, rfl, hempty⟩

/-- C8 as amended, at a concrete input: binding `empty.arrows` ends in the empty-schema
failure, and by then `OpenFile` has succeeded on it and it is the one path in the log. -/
theorem BindInternal_empty_schema_failure_follows_open_witness :
    (read_arrow_stream.BindInternal fixtureReaderHost fixtureContext "empty.arrows" [] []).thrown
        = some (.InvalidInputException empty_schema_message)
    ∧ (∃ handle fs1, fixtureContext.fs.OpenFile "empty.arrows" = .ok (handle, fs1))
    ∧ (read_arrow_stream.BindInternal fixtureReaderHost fixtureContext "empty.arrows"
        [] []).res.factory.fs.opened = [] ++ ["empty.arrows"]
    ∧ (∃ factory1 factory2 schema_root,
        fixtureReadArrowHost.InitReader (fixtureReadArrowHost.newFactory fixtureContext
          "empty.arrows") = .ok factory1
        ∧ fixtureReadArrowHost.GetFileSchema factory1 { arrow_schema := none }
          = .ok (factory2, schema_root)) := by
  have h := BindInternal_empty_schema_failure_follows_open fixtureReaderHost fixtureReadArrowHost
    fixtureContext "empty.arrows" [] []
  obtain ⟨handle, fs1, _, _, hopen, _, _, _, _, hlog, _⟩ := h.1 rfl
  obtain ⟨factory1, factory2, schema_root, h1, h2, _, _⟩ := h.2 rfl
  exact ⟨rfl, ⟨handle, fs1, hopen⟩, hlog, ⟨factory1, factory2, schema_root, h1, h2⟩⟩

/-! ## Theorems: `Flush` and the caller's batch -/

/-- When `Serialize` throws, `Flush(batch)` throws the same and the batch is untouched. -/
theorem Flush_Serialize_error (host : WriterHost) (self : ArrowStreamWriter)
    (buffer : ColumnDataCollection) (e : Exception)
    (hser : self.serializer.Serialize host buffer = .error e) :
    (self.Flush host buffer).thrown = some e ∧ (self.Flush host buffer).buffer = buffer
      ∧ (self.Flush host buffer).self = self := by
  simp [ArrowStreamWriter.Flush, hser]

/-- Once `Serialize` has returned, `Flush(batch)` leaves the batch reset, whatever
happens afterwards. -/
theorem Flush_Serialize_ok_buffer (host : WriterHost) (self : ArrowStreamWriter)
    (buffer : ColumnDataCollection) (serializer1 : ColumnDataCollectionSerializer)
    (hser : self.serializer.Serialize host buffer = .ok serializer1) :
    (self.Flush host buffer).buffer = buffer.Reset := by
  unfold ArrowStreamWriter.Flush
  simp only [hser]
  cases h2 : deref self.writer with
  | error e => rfl
  | ok writer =>
    simp only []
    cases h3 : serializer1.Flush writer with
    | error e => rfl
    | ok p => rfl

/-- When `Serialize` returns and the serializer's `Flush` to the writer throws,
`Flush(batch)` throws the same, the row-group counter is not stepped, and the batch has
already been reset. -/
theorem Flush_write_error (host : WriterHost) (self : ArrowStreamWriter)
    (buffer : ColumnDataCollection) (serializer1 : ColumnDataCollectionSerializer)
    (writer : BufferedFileWriter) (e : Exception)
    (hser : self.serializer.Serialize host buffer = .ok serializer1)
    (hw : self.writer = some writer)
    (hflush : serializer1.Flush writer = .error e) :
    (self.Flush host buffer).thrown = some e
      ∧ (self.Flush host buffer).buffer = buffer.Reset
      ∧ (self.Flush host buffer).self.row_group_count = self.row_group_count
      ∧ (self.Flush host buffer).self.writer = some writer := by
  simp [ArrowStreamWriter.Flush, hser, hw, deref, hflush]

/-- C11, refuted at a concrete input: flushing a two-row batch to a destination that
has no room for the message.  `Serialize` succeeds, the write throws an `IOException`,
and the caller's batch is left empty: it no longer holds its two rows. -/
theorem Flush_failed_write_leaves_batch_reset :
    (fixtureFullWriter.Flush fixtureWriterHost { rows := [[1], [2]] }).thrown
        = some (.IOException "Could not write all bytes to file")
    ∧ (fixtureFullWriter.Flush fixtureWriterHost { rows := [[1], [2]] }).buffer = { rows := [] }
    ∧ (fixtureFullWriter.Flush fixtureWriterHost { rows := [[1], [2]] }).buffer
        ≠ { rows := [[1], [2]] } := by
  refine ⟨rfl, rfl, ?_⟩
  decide

/-- C11 as amended: `Flush(batch)` resets the caller's batch as soon as `Serialize` has
succeeded and before the encoded message is written.  When `Serialize` throws, the batch
still holds its contents; when `Serialize` succeeds the batch is reset, also on every run
where the serializer's `Flush` to the writer then throws (the exception reaches the
caller and the row-group counter is not stepped). -/
theorem Flush_resets_batch_before_write (host : WriterHost) (self : ArrowStreamWriter)
    (buffer : ColumnDataCollection) :
    (∀ e, self.serializer.Serialize host buffer = .error e →
        (self.Flush host buffer).thrown = some e ∧ (self.Flush host buffer).buffer = buffer)
    ∧ (∀ serializer1, self.serializer.Serialize host buffer = .ok serializer1 →
        (self.Flush host buffer).buffer = buffer.Reset
        ∧ (self.Flush host buffer).buffer.rows = [])
    ∧ (∀ serializer1 writer e, self.serializer.Serialize host buffer = .ok serializer1 →
        self.writer = some writer → serializer1.Flush writer = .error e →
        (self.Flush host buffer).thrown = some e
        ∧ (self.Flush host buffer).buffer = buffer.Reset
        ∧ (self.Flush host buffer).self.NumberOfRowGroups = self.NumberOfRowGroups) := by
  refine ⟨?_, ?_, ?_⟩
  · intro e hser
    exact ⟨(Flush_Serialize_error host self buffer e hser).1,
      (Flush_Serialize_error host self buffer e hser).2.1⟩
  · intro serializer1 hser
    have h := Flush_Serialize_ok_buffer host self buffer serializer1 hser
    exact ⟨h, by rw [h]; rfl⟩
  · intro serializer1 writer e hser hw hflush
    have h := Flush_write_error host self buffer serializer1 writer e hser hw hflush
    exact ⟨h.1, h.2.1, h.2.2.1⟩

/-- C11 as amended, at concrete inputs: on the full destination the write fails and the
batch is reset; on a writer whose serializer is not bound to a schema `Serialize` fails
and the batch keeps its two rows. -/
theorem Flush_resets_batch_before_write_witness :
    (fixtureFullWriter.Flush fixtureWriterHost { rows := [[1], [2]] }).buffer = { rows := [] }
    ∧ (fixtureBlankWriter.Flush fixtureWriterHost { rows := [[1], [2]] }).buffer
        = { rows := [[1], [2]] } := by
  have hfull := Flush_resets_batch_before_write fixtureWriterHost fixtureFullWriter
    { rows := [[1], [2]] }
  have hblank := Flush_resets_batch_before_write fixtureWriterHost fixtureBlankWriter
    { rows := [[1], [2]] }
  exact ⟨(hfull.2.1 _ rfl).1,
    (hblank.1 (.InternalException "serializer is not initialized") rfl).2⟩

/-! ## Theorems: `DuckDBArrowInputStream::Read` -/

/-- C12: `DuckDBArrowInputStream::Read` always returns a code to the decoder.  When the
handle's read returns `n`, the code is `NANOARROW_OK` and `*size_read_out` is `n` (the
error is untouched); when the handle's read throws `e`, the code is `EIO`, the error is
set from `e.what()`, and `*size_read_out` is left as the caller had it.  No other
outcome exists. -/
theorem Read_returns_code_for_every_outcome (self : DuckDBArrowInputStream) (buf : List Nat)
    (buf_size_bytes : Int) (size_read_out : Int) (error : ArrowError) :
    (∀ n bytes handle1, self.handle.Read (size_t buf_size_bytes) = .ok (n, bytes, handle1) →
        (self.Read buf buf_size_bytes size_read_out error).code = NANOARROW_OK
        ∧ (self.Read buf buf_size_bytes size_read_out error).size_read_out = (n : Int)
        ∧ (self.Read buf buf_size_bytes size_read_out error).error = error)
    ∧ (∀ e, self.handle.Read (size_t buf_size_bytes) = .error e →
        (self.Read buf buf_size_bytes size_read_out error).code = EIO
        ∧ (self.Read buf buf_size_bytes size_read_out error).error
            = { fmt := "Uncaught exception in DuckDBArrowInputStream::Read(): %s",
                args := [.str e.what] }
        ∧ (self.Read buf buf_size_bytes size_read_out error).size_read_out = size_read_out)
    ∧ ((self.Read buf buf_size_bytes size_read_out error).code = NANOARROW_OK
        ∨ (self.Read buf buf_size_bytes size_read_out error).code = EIO) := by
  refine ⟨?_, ?_, ?_⟩
  · intro n bytes handle1 h
    simp [DuckDBArrowInputStream.Read, h]
  · intro e h
    simp [DuckDBArrowInputStream.Read, h, ArrowErrorSet]
  · cases h : self.handle.Read (size_t buf_size_bytes) with
    | ok p =>
      obtain ⟨n, bytes, handle1⟩ := p
      left
      simp [DuckDBArrowInputStream.Read, h]
    | error e =>
      right
      simp [DuckDBArrowInputStream.Read, h]

/-- C12 at concrete inputs: asking a four-byte file for 3 bytes gives `NANOARROW_OK` and
3; a handle that throws gives `EIO`, the message argument `Could not read from file`,
and leaves the caller's `-1` in `*size_read_out`. -/
theorem Read_returns_code_for_every_outcome_witness :
    (fixtureInputStream.Read [] 3 (-1) { fmt := "", args := [] }).code = NANOARROW_OK
    ∧ (fixtureInputStream.Read [] 3 (-1) { fmt := "", args := [] }).size_read_out = 3
    ∧ (fixtureBrokenInputStream.Read [] 3 (-1) { fmt := "", args := [] }).code = EIO
    ∧ (fixtureBrokenInputStream.Read [] 3 (-1) { fmt := "", args := [] }).error
        = { fmt := "Uncaught exception in DuckDBArrowInputStream::Read(): %s",
            args := [.str "Could not read from file"] }
    ∧ (fixtureBrokenInputStream.Read [] 3 (-1) { fmt := "", args := [] }).size_read_out = -1 := by
  have hgood := Read_returns_code_for_every_outcome fixtureInputStream [] 3 (-1)
    { fmt := "", args := [] }
  have hbad := Read_returns_code_for_every_outcome fixtureBrokenInputStream [] 3 (-1)
    { fmt := "", args := [] }
  have h1 := hgood.1 3 [10, 20, 30] _ rfl
  have h2 := hbad.2.1 (.IOException "Could not read from file") rfl
  exact ⟨h1.1, h1.2.1, h2.1, h2.2.1, h2.2.2⟩

/-! ## Theorems: the stream factory -/

/-- An `InitStream` that succeeds started from a released stream and leaves the stream
initialised. -/
theorem InitStream_ok_inv (factory factory1 : read_arrow_stream.ArrowIpcArrowArrayStreamFactory)
    (h : factory.InitStream = .ok factory1) :
    factory.stream = none ∧ ∃ stream, factory1.stream = some stream := by
  unfold read_arrow_stream.ArrowIpcArrowArrayStreamFactory.InitStream at h
  cases hs : factory.stream with
  | some stream => simp [hs] at h
  | none =>
    simp only [hs] at h
    cases hopen : factory.fs.OpenFile factory.src_string with
    | error e => simp [hopen] at h
    | ok p =>
      obtain ⟨handle, fs1⟩ := p
      simp only [hopen, Except.ok.injEq] at h
      refine ⟨rfl, ?_⟩
      rw [← h]
      exact ⟨_, rfl⟩

theorem InitStream_initialised (factory : read_arrow_stream.ArrowIpcArrowArrayStreamFactory)
    (stream : ArrowArrayStream) (hs : factory.stream = some stream) :
    factory.InitStream = .error (.InternalException "ArrowArrayStream is already initialized") := by
  simp [read_arrow_stream.ArrowIpcArrowArrayStreamFactory.InitStream, hs]

theorem GetSchema_released (host : ReaderHost)
    (factory : read_arrow_stream.ArrowIpcArrowArrayStreamFactory) (schema : ArrowSchemaWrapper)
    (hs : factory.stream = none) :
    (factory.GetSchema host schema).thrown
        = some (.InternalException "ArrowArrayStream was released by another thread/library")
      ∧ (factory.GetSchema host schema).self = factory := by
  simp [read_arrow_stream.ArrowIpcArrowArrayStreamFactory.GetSchema, hs]

theorem Produce_released (factory : read_arrow_stream.ArrowIpcArrowArrayStreamFactory)
    (hs : factory.stream = none) :
    factory.Produce = .error (.InternalException "ArrowArrayStream was not initialized") := by
  simp [read_arrow_stream.ArrowIpcArrowArrayStreamFactory.Produce, hs]

theorem Produce_initialised (factory : read_arrow_stream.ArrowIpcArrowArrayStreamFactory)
    (stream : ArrowArrayStream) (hs : factory.stream = some stream) :
    factory.Produce = .ok ({ arrow_array_stream := some stream }, { factory with stream := none }) := by
  simp [read_arrow_stream.ArrowIpcArrowArrayStreamFactory.Produce, hs]

/-- A `Produce` that succeeds handed over the factory's stream and left the factory
released. -/
theorem Produce_ok_inv (factory factory1 : read_arrow_stream.ArrowIpcArrowArrayStreamFactory)
    (wrapper : read_arrow_stream.ArrowArrayStreamWrapper)
    (h : factory.Produce = .ok (wrapper, factory1)) :
    factory1.stream = none ∧ wrapper.arrow_array_stream = factory.stream
      ∧ ∃ stream, factory.stream = some stream := by
  unfold read_arrow_stream.ArrowIpcArrowArrayStreamFactory.Produce at h
  cases hs : factory.stream with
  | none => simp [hs] at h
  | some stream =>
    simp only [hs, Except.ok.injEq, Prod.mk.injEq] at h
    refine ⟨?_, ?_, stream, rfl⟩
    · rw [← h.2]
    · rw [← h.1]

/-- C13: the stream factory is a one-shot state machine over "released" (`stream` has no
`release` callback) and "initialised".  `InitStream` succeeds only from released and then
leaves the stream initialised; on an initialised stream it throws `InternalException`.
On a released stream `GetSchema` and `Produce` throw `InternalException` and change
nothing.  On an initialised stream `Produce` succeeds and moves the stream into the
wrapper; after any successful `Produce` the factory is released, so a further `Produce`
or `GetSchema` throws `InternalException`, until an `InitStream` succeeds again, after
which `Produce` succeeds once more. -/
theorem factory_is_one_shot (host : ReaderHost)
    (factory : read_arrow_stream.ArrowIpcArrowArrayStreamFactory) (schema : ArrowSchemaWrapper) :
    (∀ factory1, factory.InitStream = .ok factory1 →
        factory.stream = none ∧ ∃ stream, factory1.stream = some stream)
    ∧ (∀ stream, factory.stream = some stream →
        factory.InitStream = .error (.InternalException "ArrowArrayStream is already initialized"))
    ∧ (factory.stream = none →
        (factory.GetSchema host schema).thrown
            = some (.InternalException "ArrowArrayStream was released by another thread/library")
        ∧ (factory.GetSchema host schema).self = factory
        ∧ factory.Produce = .error (.InternalException "ArrowArrayStream was not initialized"))
    ∧ (∀ stream, factory.stream = some stream →
        factory.Produce
          = .ok ({ arrow_array_stream := some stream }, { factory with stream := none }))
    ∧ (∀ wrapper factory1, factory.Produce = .ok (wrapper, factory1) →
        wrapper.arrow_array_stream = factory.stream
        ∧ factory1.stream = none
        ∧ factory1.Produce = .error (.InternalException "ArrowArrayStream was not initialized")
        ∧ (factory1.GetSchema host schema).thrown
            = some (.InternalException "ArrowArrayStream was released by another thread/library")
        ∧ (∀ factory2, factory1.InitStream = .ok factory2 →
            ∃ wrapper2 factory3, factory2.Produce = .ok (wrapper2, factory3)
              ∧ factory3.stream = none)) := by
  refine ⟨?_, ?_, ?_, ?_, ?_⟩
  · intro factory1 h
    exact InitStream_ok_inv factory factory1 h
  · intro stream hs
    exact InitStream_initialised factory stream hs
  · intro hs
    exact ⟨(GetSchema_released host factory schema hs).1,
      (GetSchema_released host factory schema hs).2, Produce_released factory hs⟩
  · intro stream hs
    exact Produce_initialised factory stream hs
  · intro wrapper factory1 h
    obtain ⟨h1, hw, _⟩ := Produce_ok_inv factory factory1 wrapper h
    refine ⟨hw, h1, Produce_released factory1 h1,
      (GetSchema_released host factory1 schema h1).1, ?_⟩
    intro factory2 h2
    obtain ⟨_, stream2, hs2⟩ := InitStream_ok_inv factory1 factory2 h2
    exact ⟨_, _, Produce_initialised factory2 stream2 hs2, rfl⟩

/-- C13 at a concrete input: the factory for `one.arrows`.  Fresh from its constructor
`Produce` throws; `InitStream` succeeds; a second `InitStream` throws; `Produce` then
succeeds and a second `Produce` throws. -/
theorem factory_is_one_shot_witness :
    (read_arrow_stream.ArrowIpcArrowArrayStreamFactory.new fixtureContext "one.arrows").Produce
        = .error (.InternalException "ArrowArrayStream was not initialized")
    ∧ ∃ factory1 wrapper factory2,
        (read_arrow_stream.ArrowIpcArrowArrayStreamFactory.new fixtureContext
          "one.arrows").InitStream = .ok factory1
        ∧ factory1.InitStream
            = .error (.InternalException "ArrowArrayStream is already initialized")
        ∧ factory1.Produce = .ok (wrapper, factory2)
        ∧ factory2.Produce = .error (.InternalException "ArrowArrayStream was not initialized") := by
  have h0 := factory_is_one_shot fixtureReaderHost
    (read_arrow_stream.ArrowIpcArrowArrayStreamFactory.new fixtureContext "one.arrows")
    { arrow_schema := none }
  refine ⟨(h0.2.2.1 rfl).2.2, ?_⟩
  obtain ⟨factory1, hinit⟩ : ∃ factory1,
      (read_arrow_stream.ArrowIpcArrowArrayStreamFactory.new fixtureContext
        "one.arrows").InitStream = .ok factory1 := ⟨_, rfl⟩
  obtain ⟨_, stream, hs⟩ := h0.1 factory1 hinit
  have h1 := factory_is_one_shot fixtureReaderHost factory1 { arrow_schema := none }
  have hproduce := h1.2.2.2.1 stream hs
  exact ⟨factory1, _, _, hinit, h1.2.1 stream hs, hproduce,
    (h1.2.2.2.2 _ _ hproduce).2.2.1⟩

/-! ## Theorems: `Scan` -/

theorem size_t_ofNat (n : Nat) (h : n < 2 ^ 64) : size_t (n : Int) = n := by
  unfold size_t
  omega

/-- The `idx_t` subtraction is the subtraction of the numbers when it does not go below
zero. -/
theorem idx_t_sub_eq (a b : Nat) (hb : b ≤ a) (ha : a < 2 ^ 64) : idx_t_sub a b = a - b := by
  unfold idx_t_sub
  omega

theorem idx_t_add_eq (a b : Nat) (h : a + b < 2 ^ 64) : idx_t_add a b = a + b := by
  unfold idx_t_add
  omega

/-- While `chunk_offset` is below the chunk's length, `Scan` stays on the chunk: no next
chunk is asked for. -/
theorem nextChunk_within (host : ScanHost) (state : ArrowScanLocalState)
    (global_state : ArrowScanGlobalState) (L : Nat)
    (hlen : state.chunk.arrow_array.length = (L : Int)) (hL : L < 2 ^ 63)
    (hoff : state.chunk_offset < L) :
    read_arrow_stream.Scan.nextChunk host state global_state = (true, state, global_state) := by
  unfold read_arrow_stream.Scan.nextChunk
  rw [hlen, size_t_ofNat L (by omega)]
  have : ¬ state.chunk_offset ≥ L := by omega
  simp [this]

/-- One call of `Scan` when a chunk of length `L` is in effect with `chunk_offset ≤ L`. -/
theorem Scan_step (host : ScanHost) (data_p : read_arrow_stream.TableFunctionInput)
    (output : DataChunk) (state0 state : ArrowScanLocalState)
    (global_state : ArrowScanGlobalState) (L : Nat)
    (hls : data_p.local_state = some state0)
    (hnext : read_arrow_stream.Scan.nextChunk host state0 data_p.global_state
      = (true, state, global_state))
    (hlen : state.chunk.arrow_array.length = (L : Int)) (hL : L < 2 ^ 63)
    (hoff : state.chunk_offset ≤ L)
    (hlines : data_p.bind_data.lines_read + min STANDARD_VECTOR_SIZE (L - state.chunk_offset)
      < 2 ^ 64) :
    (read_arrow_stream.Scan host data_p output).thrown = none
    ∧ (read_arrow_stream.Scan host data_p output).scanned
        = some (state.chunk_offset, min STANDARD_VECTOR_SIZE (L - state.chunk_offset))
    ∧ (read_arrow_stream.Scan host data_p output).output.size
        = min STANDARD_VECTOR_SIZE (L - state.chunk_offset)
    ∧ (∃ state1, (read_arrow_stream.Scan host data_p output).data_p.local_state = some state1
        ∧ state1.chunk = state.chunk
        ∧ state1.chunk_offset
            = state.chunk_offset + min STANDARD_VECTOR_SIZE (L - state.chunk_offset))
    ∧ (read_arrow_stream.Scan host data_p output).data_p.bind_data.lines_read
        = data_p.bind_data.lines_read + min STANDARD_VECTOR_SIZE (L - state.chunk_offset)
    ∧ (read_arrow_stream.Scan host data_p output).data_p.global_state = global_state := by
  have hcast : NumericCast_idx_t state.chunk.arrow_array.length = .ok L := by
    unfold NumericCast_idx_t
    rw [hlen]
    have : ¬ ((L : Int) < 0) := by omega
    simp [this]
  have hsub : idx_t_sub L state.chunk_offset = L - state.chunk_offset :=
    idx_t_sub_eq L state.chunk_offset hoff (by omega)
  have hsvs : STANDARD_VECTOR_SIZE = 2048 := rfl
  have hadd1 : idx_t_add data_p.bind_data.lines_read
      (min STANDARD_VECTOR_SIZE (L - state.chunk_offset))
      = data_p.bind_data.lines_read + min STANDARD_VECTOR_SIZE (L - state.chunk_offset) :=
    idx_t_add_eq _ _ (by omega)
  have hadd2 : idx_t_add state.chunk_offset (min STANDARD_VECTOR_SIZE (L - state.chunk_offset))
      = state.chunk_offset + min STANDARD_VECTOR_SIZE (L - state.chunk_offset) :=
    idx_t_add_eq _ _ (by omega)
  unfold read_arrow_stream.Scan
  simp only [hls, hnext, hcast, hsub]
  by_cases hproj : global_state.CanRemoveFilterColumns = true
  · rw [if_pos hproj]
    exact ⟨rfl, rfl, rfl, ⟨_, rfl, rfl, hadd2⟩, hadd1, rfl⟩
  · rw [if_neg hproj]
    exact ⟨rfl, rfl, rfl, ⟨_, rfl, rfl, hadd2⟩, hadd1, rfl⟩

/-- The calls of `Scan` that walk one chunk: from `chunk_offset = o` in a chunk of length
`L`, the `⌈(L - o) / STANDARD_VECTOR_SIZE⌉` next calls hand rows `o .. L - 1` to
`ArrowToDuckDB`, each row once and in order, and leave `chunk_offset = L`. -/
theorem Scan_repeated_walks_chunk (host : ScanHost) (n : Nat) :
    ∀ (data_p : read_arrow_stream.TableFunctionInput) (output : DataChunk)
      (state : ArrowScanLocalState) (L o : Nat),
      data_p.local_state = some state →
      state.chunk.arrow_array.length = (L : Int) → L < 2 ^ 63 →
      state.chunk_offset = o → o ≤ L →
      (L - o + (STANDARD_VECTOR_SIZE - 1)) / STANDARD_VECTOR_SIZE = n →
      data_p.bind_data.lines_read + (L - o) < 2 ^ 64 →
      tilesRows o L (read_arrow_stream.Scan.repeated host n data_p output).1 = true
      ∧ ((read_arrow_stream.Scan.repeated host n data_p output).1.map Prod.snd).sum = L - o
      ∧ (∃ state1, (read_arrow_stream.Scan.repeated host n data_p output).2.1.local_state
            = some state1
          ∧ state1.chunk = state.chunk ∧ state1.chunk_offset = L)
      ∧ (read_arrow_stream.Scan.repeated host n data_p output).2.1.bind_data.lines_read
          = data_p.bind_data.lines_read + (L - o) := by
  have hsvs : STANDARD_VECTOR_SIZE = 2048 := rfl
  induction n with
  | zero =>
    intro data_p output state L o hls hlen hL ho hoL hn hlines
    rw [hsvs] at hn
    have hLo : o = L := by omega
    subst hLo
    simp only [read_arrow_stream.Scan.repeated, tilesRows, beq_self_eq_true, List.map_nil,
      List.sum_nil, Nat.sub_self, Nat.add_zero, true_and, and_true]
    exact ⟨state, hls, rfl, ho⟩
  | succ n ih =>
    intro data_p output state L o hls hlen hL ho hoL hn hlines
    rw [hsvs] at hn
    have hlt : o < L := by omega
    have hnext := nextChunk_within host state data_p.global_state L hlen hL (by omega)
    obtain ⟨hthrown, hscanned, _, ⟨state1, hls1, hchunk1, hoff1⟩, hlines1, _⟩ :=
      Scan_step host data_p output state state data_p.global_state L hls hnext hlen hL
        (by omega) (by rw [hsvs, ho]; omega)
    rw [ho, hsvs] at hscanned hoff1 hlines1
    obtain ⟨ht, hsum, ⟨state2, hls2, hchunk2, hoff2⟩, hlines2⟩ :=
      ih (read_arrow_stream.Scan host data_p output).data_p
        (read_arrow_stream.Scan host data_p output).output state1 L (o + min 2048 (L - o))
        hls1 (by rw [hchunk1]; exact hlen) hL hoff1 (by omega) (by rw [hsvs]; omega)
        (by rw [hlines1]; omega)
    have hrep : read_arrow_stream.Scan.repeated host (n + 1) data_p output
        = ((o, min 2048 (L - o))
              :: (read_arrow_stream.Scan.repeated host n
                    (read_arrow_stream.Scan host data_p output).data_p
                    (read_arrow_stream.Scan host data_p output).output).1,
           (read_arrow_stream.Scan.repeated host n
              (read_arrow_stream.Scan host data_p output).data_p
              (read_arrow_stream.Scan host data_p output).output).2.1,
           (read_arrow_stream.Scan.repeated host n
              (read_arrow_stream.Scan host data_p output).data_p
              (read_arrow_stream.Scan host data_p output).output).2.2) := by
      simp [read_arrow_stream.Scan.repeated, hthrown, hscanned]
    rw [hrep]
    refine ⟨?_, ?_, ⟨state2, hls2, by rw [hchunk2, hchunk1], hoff2⟩, ?_⟩
    · have hpos : 0 < min 2048 (L - o) := by omega
      simp [tilesRows, hpos, ht]
    · simp only [List.map_cons, List.sum_cons, hsum]
      omega
    · rw [hlines2, hlines1]
      omega

theorem Scan_repeated_succ (host : ScanHost) (n : Nat)
    (data_p : read_arrow_stream.TableFunctionInput) (output : DataChunk) (rows : Nat × Nat)
    (hthrown : (read_arrow_stream.Scan host data_p output).thrown = none)
    (hscanned : (read_arrow_stream.Scan host data_p output).scanned = some rows) :
    read_arrow_stream.Scan.repeated host (n + 1) data_p output
      = (rows :: (read_arrow_stream.Scan.repeated host n
                    (read_arrow_stream.Scan host data_p output).data_p
                    (read_arrow_stream.Scan host data_p output).output).1,
         (read_arrow_stream.Scan.repeated host n
            (read_arrow_stream.Scan host data_p output).data_p
            (read_arrow_stream.Scan host data_p output).output).2.1,
         (read_arrow_stream.Scan.repeated host n
            (read_arrow_stream.Scan host data_p output).data_p
            (read_arrow_stream.Scan host data_p output).output).2.2) := by
  simp [read_arrow_stream.Scan.repeated, hthrown, hscanned]

/-- C14: let a chunk of length `L` (a non-negative `int64_t`) be in effect when `Scan`
computes its output size, with `chunk_offset`: either the chunk `Scan` was called on,
`chunk_offset` being below its length, or the chunk `ArrowScanParallelStateNext` has just
delivered, `chunk_offset` being within it (`hfetched`).  Then `chunk_offset ≤ L`, so the
`idx_t` subtraction does not wrap; the emitted row count is
`min(STANDARD_VECTOR_SIZE, L - chunk_offset)`; afterwards `chunk_offset` has grown by
exactly that count and is at most `L`, and `lines_read` has grown by the same count.
And the `⌈(L - chunk_offset) / STANDARD_VECTOR_SIZE⌉` calls of `Scan` starting with this
one hand rows `chunk_offset .. L - 1` of the chunk to the conversion in consecutive,
non-empty ranges: `L - chunk_offset` rows in total (`L` from `chunk_offset = 0`), no row
twice, ending with `chunk_offset = L`. -/
theorem Scan_emits_every_row_once (host : ScanHost)
    (data_p : read_arrow_stream.TableFunctionInput) (output : DataChunk)
    (state0 state : ArrowScanLocalState) (global_state : ArrowScanGlobalState) (L : Nat)
    (hls : data_p.local_state = some state0)
    (hnext : read_arrow_stream.Scan.nextChunk host state0 data_p.global_state
      = (true, state, global_state))
    (hlen : state.chunk.arrow_array.length = (L : Int)) (hL : L < 2 ^ 63)
    (hfetched : state0.chunk_offset ≥ size_t state0.chunk.arrow_array.length →
      state.chunk_offset ≤ L)
    (hlines : data_p.bind_data.lines_read + L < 2 ^ 64) :
    state.chunk_offset ≤ L
    ∧ idx_t_sub L state.chunk_offset = L - state.chunk_offset
    ∧ (read_arrow_stream.Scan host data_p output).thrown = none
    ∧ (read_arrow_stream.Scan host data_p output).output.size
        = min STANDARD_VECTOR_SIZE (L - state.chunk_offset)
    ∧ (read_arrow_stream.Scan host data_p output).scanned
        = some (state.chunk_offset, (read_arrow_stream.Scan host data_p output).output.size)
    ∧ (∃ state1, (read_arrow_stream.Scan host data_p output).data_p.local_state = some state1
        ∧ state1.chunk = state.chunk
        ∧ state1.chunk_offset
            = state.chunk_offset + (read_arrow_stream.Scan host data_p output).output.size
        ∧ state1.chunk_offset ≤ L)
    ∧ (read_arrow_stream.Scan host data_p output).data_p.bind_data.lines_read
        = data_p.bind_data.lines_read + (read_arrow_stream.Scan host data_p output).output.size
    ∧ tilesRows state.chunk_offset L
        (read_arrow_stream.Scan.repeated host
          ((L - state.chunk_offset + (STANDARD_VECTOR_SIZE - 1)) / STANDARD_VECTOR_SIZE)
          data_p output).1 = true
    ∧ ((read_arrow_stream.Scan.repeated host
          ((L - state.chunk_offset + (STANDARD_VECTOR_SIZE - 1)) / STANDARD_VECTOR_SIZE)
          data_p output).1.map Prod.snd).sum = L - state.chunk_offset
    ∧ (state.chunk_offset < L →
        ∃ state2, (read_arrow_stream.Scan.repeated host
            ((L - state.chunk_offset + (STANDARD_VECTOR_SIZE - 1)) / STANDARD_VECTOR_SIZE)
            data_p output).2.1.local_state = some state2
          ∧ state2.chunk = state.chunk ∧ state2.chunk_offset = L) := by
  have hsvs : STANDARD_VECTOR_SIZE = 2048 := rfl
  have hoff : state.chunk_offset ≤ L := by
    by_cases hguard : state0.chunk_offset ≥ size_t state0.chunk.arrow_array.length
    · exact hfetched hguard
    · have hsame : (true, state0, data_p.global_state) = (true, state, global_state) := by
        rw [← hnext]
        simp [read_arrow_stream.Scan.nextChunk, hguard]
      have hst : state0 = state := by
        simp only [Prod.mk.injEq, true_and] at hsame
        exact hsame.1
      subst hst
      rw [hlen, size_t_ofNat L (by omega)] at hguard
      omega
  obtain ⟨hthrown, hscanned, hsize, ⟨state1, hls1, hchunk1, hoff1⟩, hlines1, _⟩ :=
    Scan_step host data_p output state0 state global_state L hls hnext hlen hL hoff
      (by rw [hsvs]; omega)
  refine ⟨hoff, idx_t_sub_eq L state.chunk_offset hoff (by omega), hthrown, hsize,
    by rw [hsize]; exact hscanned,
    ⟨state1, hls1, hchunk1, by rw [hsize]; exact hoff1, by rw [hoff1, hsvs]; omega⟩,
    by rw [hsize]; exact hlines1, ?_⟩
  cases hn : (L - state.chunk_offset + (STANDARD_VECTOR_SIZE - 1)) / STANDARD_VECTOR_SIZE with
  | zero =>
    rw [hsvs] at hn
    have hLo : state.chunk_offset = L := by omega
    refine ⟨?_, ?_, ?_⟩
    · simp [read_arrow_stream.Scan.repeated, tilesRows, hLo]
    · simp [read_arrow_stream.Scan.repeated, hLo]
    · intro hlt
      omega
  | succ n =>
    rw [hsvs] at hn hoff1 hlines1 hscanned
    obtain ⟨ht, hsum, ⟨state2, hls2, hchunk2, hoff2⟩, _⟩ :=
      Scan_repeated_walks_chunk host n (read_arrow_stream.Scan host data_p output).data_p
        (read_arrow_stream.Scan host data_p output).output state1 L
        (state.chunk_offset + min 2048 (L - state.chunk_offset))
        hls1 (by rw [hchunk1]; exact hlen) hL hoff1 (by omega) (by rw [hsvs]; omega)
        (by rw [hlines1]; omega)
    rw [Scan_repeated_succ host n data_p output _ hthrown hscanned]
    refine ⟨?_, ?_, ?_⟩
    · have hpos : 0 < min 2048 (L - state.chunk_offset) := by omega
      simp [tilesRows, hpos, ht]
    · simp only [List.map_cons, List.sum_cons, hsum]
      omega
    · intro _
      exact ⟨state2, hls2, by rw [hchunk2, hchunk1], hoff2⟩

/-- C14 at concrete inputs: in a 5000-row chunk with 4096 rows emitted, `Scan` emits the
last 904 rows and leaves `chunk_offset = 5000` and `lines_read = 5000`; from the start of
the chunk, three calls hand over rows `0 .. 4999` in consecutive ranges, 5000 rows in
total. -/
theorem Scan_emits_every_row_once_witness :
    (read_arrow_stream.Scan fixtureScanHost fixtureScanInput { count := 0, data := [[]] }).thrown
        = none
    ∧ (read_arrow_stream.Scan fixtureScanHost fixtureScanInput
        { count := 0, data := [[]] }).output.size = 904
    ∧ (read_arrow_stream.Scan fixtureScanHost fixtureScanInput
        { count := 0, data := [[]] }).data_p.bind_data.lines_read = 4096 + 904
    ∧ (∃ state1, (read_arrow_stream.Scan fixtureScanHost fixtureScanInput
          { count := 0, data := [[]] }).data_p.local_state = some state1
        ∧ state1.chunk_offset = 5000)
    ∧ tilesRows 0 5000 (read_arrow_stream.Scan.repeated fixtureScanHost 3 fixtureScanStart
        { count := 0, data := [[]] }).1 = true
    ∧ ((read_arrow_stream.Scan.repeated fixtureScanHost 3 fixtureScanStart
        { count := 0, data := [[]] }).1.map Prod.snd).sum = 5000 := by
  have hmid := Scan_emits_every_row_once fixtureScanHost fixtureScanInput
    { count := 0, data := [[]] }
    { chunk := { arrow_array := { length := 5000 } }, chunk_offset := 4096,
      all_columns := { count := 0, data := [[]] } }
    { chunk := { arrow_array := { length := 5000 } }, chunk_offset := 4096,
      all_columns := { count := 0, data := [[]] } }
    { projection_ids := [], pending := [], done := false } 5000
    rfl rfl rfl (by decide) (fun _ => by decide) (by decide)
  have hstart := Scan_emits_every_row_once fixtureScanHost fixtureScanStart
    { count := 0, data := [[]] }
    { chunk := { arrow_array := { length := 5000 } }, chunk_offset := 0,
      all_columns := { count := 0, data := [[]] } }
    { chunk := { arrow_array := { length := 5000 } }, chunk_offset := 0,
      all_columns := { count := 0, data := [[]] } }
    { projection_ids := [], pending := [], done := false } 5000
    rfl rfl rfl (by decide) (fun _ => by decide) (by decide)
  obtain ⟨_, _, h3, h4, _, ⟨state1, hs1, _, hs3, _⟩, h7, _⟩ := hmid
  obtain ⟨_, _, _, _, _, _, _, h8, h9, _⟩ := hstart
  refine ⟨h3, h4, ?_, ⟨state1, hs1, ?_⟩, h8, h9⟩
  · rw [h7, h4]; rfl
  · rw [hs3, h4]; rfl

end ext_nanoarrow
end duckdb
